import Mathlib

/-!
# GnuCash: CSV price import properties and the stock transaction assistant

A shallow embedding of `gnucash/import-export/csv-imp/gnc-price-props.cpp`
(`parse_date_price`, `parse_amount_price`, `parse_commodity_price_comm`,
`GncImportPrice::set`, `GncImportPrice::reset`,
`GncImportPrice::verify_essentials`, `GncImportPrice::create_price`) and of the
behaviour the fixture of
`gnucash/gnome/test/gtest-assistant-stock-transaction.cpp` exercises.

Conventions of the embedding.
* A C++ function that can throw returns `Except Exn α`.
* `_()` (gettext) is the identity: messages are the untranslated literals.
* Engine functions whose code is outside `gnc-price-props.cpp` (commodity
  table, price database, numeric parsing, calendar conversion) are fields of
  `Engine`, `CommodityTable` and `PriceDBOps`; every theorem holds for all of
  them.
* A method that changes member variables returns the object afterwards next to
  its result.
* Calls made on the price database are recorded, in order, in a call log, so
  that "which store operations were performed" is a statement about a value.
-/

namespace GnuCash

/-! ## Exceptions and base types -/

/-- The two C++ exception classes the file throws or catches, with `what()`. -/
inductive Exn where
  | invalid_argument (what : String)
  | out_of_range (what : String)
  deriving DecidableEq, Repr

/-- A `gnc_commodity*`: commodities are engine objects known by their address. -/
abbrev gnc_commodity := Nat

/-- A `QofBook*`. -/
abbrev QofBook := Nat

/-- The engine's `time64`: seconds since the epoch. -/
abbrev time64 := Int

/-- Modelled from the spec: the Numeric/Value type ("exact rational amount
representation with add/invert/compare/convert-with-rounding"); the class
`GncNumeric` is declared in the engine's `gnc-numeric.hpp`, outside
`gnc-price-props.cpp`. -/
abbrev GncNumeric := ℚ

/-- The engine's `Timespec`. -/
structure Timespec where
  tv_sec : Int
  tv_nsec : Int
  deriving DecidableEq, Repr

/-- The largest `int64_t`, the failure value of `gnc_dmy2timespec_neutral`. -/
def INT64_MAX : Int := 9223372036854775807

/-- The largest `int`, past which `std::stoi` throws `std::out_of_range`. -/
def INT_MAX : Int := 2147483647

/-! ## Regular expressions of `date_regex_price`

The fragment of Perl-syntax regular expressions that `date_regex_price` uses,
with leftmost, first-alternative, greedy backtracking matching
(`boost::regex_search`). -/

/-- The three named sub-expressions. -/
inductive GroupName where
  | YEAR | MONTH | DAY
  deriving DecidableEq, Repr

/-- The two character classes: the digits `[0-9]` and the separators (hyphen,
slash, period, apostrophe and blank). -/
inductive CharClass where
  | digit
  | separator
  deriving DecidableEq, Repr

/-- Membership of a character in a class. -/
def CharClass.test : CharClass → Char → Bool
  | .digit, c => '0' ≤ c && c ≤ '9'
  | .separator, c => c = '-' || c = '/' || c = '.' || c = '\'' || c = ' '

/-- Regular expression syntax tree. -/
inductive Regex where
  | plus (c : CharClass)                 -- `c+`
  | count (n : Nat) (c : CharClass)      -- `c{n}`
  | cat (a b : Regex)                    -- `ab`
  | alt (a b : Regex)                    -- `a|b`
  | opt (a : Regex)                      -- `(?:a)?`
  | group (name : GroupName) (a : Regex) -- `(?<name>a)`
  deriving Repr

/-- The text captured by each named sub-expression; `none` when the
sub-expression took no part in the match. -/
structure smatch where
  year : Option (List Char)
  month : Option (List Char)
  day : Option (List Char)
  deriving DecidableEq, Repr

/-- A match result with nothing captured. -/
def smatch.empty : smatch := { year := none, month := none, day := none }

/-- Record the capture of a named sub-expression. -/
def smatch.capture (m : smatch) : GroupName → List Char → smatch
  | .YEAR, s => { m with year := some s }
  | .MONTH, s => { m with month := some s }
  | .DAY, s => { m with day := some s }

/-- The capture of a named sub-expression. -/
def smatch.get (m : smatch) : GroupName → Option (List Char)
  | .YEAR => m.year
  | .MONTH => m.month
  | .DAY => m.day

/-- The call `what.str(name)`: the captured text, empty when unmatched. -/
def smatch.str (m : smatch) (name : GroupName) : List Char :=
  (m.get name).getD []

/-- The call `what.length(name)`: the length of the captured text, `0` when unmatched. -/
def smatch.length (m : smatch) (name : GroupName) : Nat :=
  (m.str name).length

/-- Greedy `c+` with backtracking: at least one character of the class, as many
as possible first, giving one back at a time while the continuation fails. -/
def matchPlus {R : Type} (p : Char → Bool) : List Char → (List Char → Option R) → Option R
  | [], _ => none
  | c :: cs, k =>
    if p c then
      match matchPlus p cs k with
      | some r => some r
      | none => k cs
    else none

/-- The pattern `c{n}`: exactly `n` characters of the class. -/
def matchCount {R : Type} (p : Char → Bool) : Nat → List Char → (List Char → Option R) → Option R
  | 0, s, k => k s
  | _ + 1, [], _ => none
  | n + 1, c :: cs, k => if p c then matchCount p n cs k else none

/-- Backtracking matcher anchored at the start of `s`, in continuation-passing
style: `k` is handed the unconsumed text and the captures so far. -/
def Regex.run {R : Type} : Regex → List Char → smatch → (List Char → smatch → Option R) → Option R
  | .plus c, s, m, k => matchPlus c.test s (fun rest => k rest m)
  | .count n c, s, m, k => matchCount c.test n s (fun rest => k rest m)
  | .cat a b, s, m, k => a.run s m (fun rest m1 => b.run rest m1 k)
  | .alt a b, s, m, k =>
    match a.run s m k with
    | some r => some r
    | none => b.run s m k
  | .opt a, s, m, k =>
    match a.run s m k with
    | some r => some r
    | none => k s m
  | .group name a, s, m, k =>
    a.run s m (fun rest m1 => k rest (m1.capture name (s.take (s.length - rest.length))))

/-- The call `boost::regex_search (str, what, r)`: the match at the leftmost
position of `s` where the expression matches, `none` when it matches nowhere. -/
def regex_search (r : Regex) : List Char → Option smatch
  | [] => r.run [] smatch.empty (fun _ m => some m)
  | c :: cs =>
    match r.run (c :: cs) smatch.empty (fun _ m => some m) with
    | some m => some m
    | none => regex_search r cs

open Regex CharClass GroupName in
/-- The pattern `(?<A>[0-9]+)SEP+(?<B>[0-9]+)SEP+(?<C>[0-9]+)`, with `SEP` the
separator class. -/
def regex_separated (a b c : GroupName) : Regex :=
  cat (group a (plus digit)) (cat (plus separator)
    (cat (group b (plus digit)) (cat (plus separator) (group c (plus digit)))))

open Regex CharClass GroupName in
/-- The pattern `(?<A>[0-9]+)SEP+(?<B>[0-9]+)(?:SEP+(?<YEAR>[0-9]+))?`, with
`SEP` the separator class. -/
def regex_separated_opt_year (a b : GroupName) : Regex :=
  cat (group a (plus digit)) (cat (plus separator)
    (cat (group b (plus digit)) (opt (cat (plus separator) (group YEAR (plus digit))))))

open Regex CharClass GroupName in
/-- The array `date_regex_price`: the regular expression of each of the five
date formats. -/
def date_regex_price (format : Fin 5) : Regex :=
  match format.val with
  | 0 => -- either y-m-d or CCYYMMDD
    alt (regex_separated YEAR MONTH DAY)
      (cat (group YEAR (count 4 digit)) (cat (group MONTH (count 2 digit)) (group DAY (count 2 digit))))
  | 1 => -- either d-m-y or DDMMCCYY
    alt (regex_separated DAY MONTH YEAR)
      (cat (group DAY (count 2 digit)) (cat (group MONTH (count 2 digit)) (group YEAR (count 4 digit))))
  | 2 => -- either m-d-y or MMDDCCYY
    alt (regex_separated MONTH DAY YEAR)
      (cat (group MONTH (count 2 digit)) (cat (group DAY (count 2 digit)) (group YEAR (count 4 digit))))
  | 3 => -- either d-m(-y) or DDMM(CCYY)
    alt (regex_separated_opt_year DAY MONTH)
      (cat (group DAY (count 2 digit)) (cat (group MONTH (count 2 digit)) (opt (group YEAR (plus digit)))))
  | _ => -- either m-d(-y) or MMDD(CCYY)
    alt (regex_separated_opt_year MONTH DAY)
      (cat (group MONTH (count 2 digit)) (cat (group DAY (count 2 digit)) (opt (group YEAR (plus digit)))))

/-- The call `std::stoi (s)` on the text of a sub-expression: the decimal value
of the leading digits; `std::invalid_argument` when there is none,
`std::out_of_range` when the value does not fit an `int`. -/
def stoi (s : List Char) : Except Exn Int :=
  let digits := s.takeWhile CharClass.digit.test
  if digits.isEmpty then .error (.invalid_argument "stoi")
  else
    let v : Nat := digits.foldl (fun n c => 10 * n + (c.toNat - '0'.toNat)) 0
    if (v : Int) > INT_MAX then .error (.out_of_range "stoi") else .ok v

/-! ## Engine functions used by the parsers -/

/-- The engine and library functions the parsers call; their code is in the
engine, outside `gnc-price-props.cpp`, so each is a parameter. -/
structure Engine where
  /-- The year of `timespec_now ()`, as `gnc_timespec2dmy` returns it. -/
  current_year : Int
  /-- The field `tv_sec` of `gnc_dmy2timespec_neutral (day, month, year)`. -/
  gnc_dmy2timespec_neutral : Int → Int → Int → Int
  /-- The call `boost::u32regex_replace (str, "[[:Sc:]]", "")`: the text without
  its currency symbols. -/
  strip_currency_symbols : String → String
  /-- The call `xaccParseAmount (str, TRUE, &val, &endptr)`: `none` for `FALSE`. -/
  xaccParseAmount : String → Option GncNumeric
  /-- The call `xaccParseAmountExtended (str, TRUE, negative_sign, decimal_point,
  group_separator, group, ignore_list, &val, &endptr)`: `none` for `FALSE`. -/
  xaccParseAmountExtended : String → Char → Char → Char → String → String → Option GncNumeric
  /-- The content of a `gnc_numeric` that was declared and never assigned. -/
  unassigned_val : GncNumeric
  /-- The call `gnc_commodity_is_currency (comm)`. -/
  gnc_commodity_is_currency : gnc_commodity → Bool
  /-- The call `gnc_commodity_equiv (a, b)`. -/
  gnc_commodity_equiv : gnc_commodity → gnc_commodity → Bool
  /-- The call `amount.convert<RoundType::half_up> (denom)`. -/
  convert_half_up : GncNumeric → Int → GncNumeric
  /-- The constant `CURRENCY_DENOM`. -/
  CURRENCY_DENOM : Int

/-! ## The parsers -/

/-- The two-digit year block of `parse_date_price` ("We allow two-digit years
in the range 1969 - 2068"). -/
def handle_two_digit_year (year : Int) : Int :=
  if year < 100 then
    if year < 69 then year + 2000 else year + 1900
  else year

/-- The function `parse_date_price (date_str, format)`. -/
def parse_date_price (E : Engine) (date_str : String) (format : Fin 5) : Except Exn time64 :=
  match regex_search (date_regex_price format) date_str.toList with
  | none =>
    .error (.invalid_argument "Value can't be parsed into a date using the selected date format.")
  | some what =>
    -- If date format without year was selected, the match should NOT have found a year.
    if format.val ≥ 3 && what.length .YEAR != 0 then
      .error (.invalid_argument "Value appears to contain a year while the selected format forbids this.")
    else do
      let day ← stoi (what.str .DAY)
      let month ← stoi (what.str .MONTH)
      let year ←
        if format.val < 3 then do
          -- The input dates have a year, so use that one
          let year ← stoi (what.str .YEAR)
          pure (handle_two_digit_year year)
        else
          -- The input dates don't have a year, so work with today's year.
          pure E.current_year
      let tv_sec := E.gnc_dmy2timespec_neutral day month year
      if tv_sec = INT64_MAX then
        .error (.invalid_argument "Value can't be parsed into a date using the selected date format.")
      else pure tv_sec

/-- The function `parse_amount_price (str, currency_format)`. -/
def parse_amount_price (E : Engine) (str : String) (currency_format : Int) : Except Exn GncNumeric :=
  -- If a cell is empty or just spaces return invalid amount
  if !(str.toList.any CharClass.digit.test) then
    .error (.invalid_argument "Value doesn't appear to contain a valid number.")
  else
    let str_no_symbols := E.strip_currency_symbols str
    let cannot := Exn.invalid_argument
      "Value can't be parsed into a number using the selected currency format."
    if currency_format = 0 then
      -- Currency locale
      match E.xaccParseAmount str_no_symbols with
      | none => .error cannot
      | some val => .ok val
    else if currency_format = 1 then
      -- Currency decimal period
      match E.xaccParseAmountExtended str_no_symbols '-' '.' ',' "\x03\x03" "$+" with
      | none => .error cannot
      | some val => .ok val
    else if currency_format = 2 then
      -- Currency decimal comma
      match E.xaccParseAmountExtended str_no_symbols '-' ',' '.' "\x03\x03" "$+" with
      | none => .error cannot
      | some val => .ok val
    else
      -- the switch has no default: `val` is returned as declared
      .ok E.unassigned_val

/-! ## `GncImportPrice` -/

/-- The enumeration `GncPricePropType`. -/
inductive GncPricePropType where
  | NONE | DATE | AMOUNT | FROM_COMMODITY | TO_CURRENCY
  deriving DecidableEq, Repr

/-- The map `gnc_price_col_type_strs`: the display label of each column type. -/
def gnc_price_col_type_strs : GncPricePropType → String
  | .NONE => "None"
  | .DATE => "Date"
  | .AMOUNT => "Amount"
  | .FROM_COMMODITY => "Commodity From"
  | .TO_CURRENCY => "Currency To"

/-- The member variables of `GncImportPrice`; a `boost::optional` is an
`Option`, the `std::map` of errors an association list. -/
structure GncImportPrice where
  m_date_format : Fin 5
  m_currency_format : Int
  m_date : Option time64
  m_amount : Option GncNumeric
  m_from_commodity : Option gnc_commodity
  m_to_currency : Option gnc_commodity
  m_errors : List (GncPricePropType × String)

/-- The method `GncImportPrice::verify_essentials`. -/
def verify_essentials (self : GncImportPrice) : String :=
  -- Make sure this price has the minimum required set of properties defined
  if self.m_date = none then "No date column."
  else if self.m_amount = none then "No amount column."
  else if self.m_to_currency = none then "No 'Currency to' column."
  else if self.m_from_commodity = none then "No 'Commodity from' column."
  else ""

/-! ## The price database -/

/-- The enumeration `PriceSource`, as far as the file names its members. -/
inductive PriceSource where
  | PRICE_SOURCE_FQ
  | PRICE_SOURCE_USER_PRICE
  deriving DecidableEq, Repr

/-- The constant `PRICE_TYPE_LAST`. -/
def PRICE_TYPE_LAST : String := "last"

/-- A `GNCPrice` as `create_price` fills it between `gnc_price_begin_edit` and
`gnc_price_commit_edit`: the book it was created in and the six fields set. -/
structure GNCPrice where
  book : QofBook
  commodity : gnc_commodity
  currency : gnc_commodity
  value : GncNumeric
  time : Timespec
  source : PriceSource
  typestr : String
  deriving DecidableEq

/-- The call `gnc_price_get_currency (price)`. -/
def gnc_price_get_currency (p : GNCPrice) : gnc_commodity := p.currency

/-- The price database functions `create_price` calls, over a database state
`DB`; their code is in the engine's price database, outside
`gnc-price-props.cpp`, so each is a parameter. -/
structure PriceDBOps (DB : Type) where
  /-- The call `gnc_pricedb_lookup_day (pdb, commodity, currency, date)`. -/
  gnc_pricedb_lookup_day : DB → gnc_commodity → gnc_commodity → Timespec → Option GNCPrice
  /-- The call `gnc_pricedb_remove_price (pdb, price)`: its result and the
  database afterwards. -/
  gnc_pricedb_remove_price : DB → GNCPrice → Bool × DB
  /-- The call `gnc_pricedb_add_price (pdb, price)`: its result and the database
  afterwards. -/
  gnc_pricedb_add_price : DB → GNCPrice → Bool × DB

/-- A call made on the price database. -/
inductive PriceDBCall where
  | lookup_day (commodity currency : gnc_commodity) (date : Timespec)
  | remove_price (price : GNCPrice)
  | add_price (price : GNCPrice)
  deriving DecidableEq

/-- The enumeration `Result` of `create_price`. -/
inductive Result where
  | FAILED | ADDED | DUPLICATED | REPLACED
  deriving DecidableEq, Repr

/-- What a call of `create_price` leaves behind: the value it returned or the
exception it threw, the price database afterwards, and the calls it made on the
price database, in order. -/
structure CreatePriceOutcome (DB : Type) where
  result : Except Exn Result
  pdb : DB
  calls : List PriceDBCall

/-- The block of `create_price` that sets `rev` (from `bool rev = false` to the
end of the "Currency Import" branch), given the price the same-day lookup
returned. -/
def create_price_rev (E : Engine) (m_amount : GncNumeric) (m_from_commodity : gnc_commodity)
    (old_price : Option GNCPrice) : Bool :=
  if E.gnc_commodity_is_currency m_from_commodity then -- Currency Import
    -- Check for price in reverse direction.
    let rev :=
      match old_price with
      | some old =>
        if E.gnc_commodity_equiv (gnc_price_get_currency old) m_from_commodity then true
        else false
      | none => false
    -- Check for price less than 1, reverse if so.
    if m_amount < 1 then true else rev
  else false

/-- The block of `create_price` under "Create the new price", from
`gnc_price_create` to `gnc_price_commit_edit`: the price handed to
`gnc_pricedb_add_price`. -/
def create_price_new_price (E : Engine) (book : QofBook) (date : Timespec) (amount : GncNumeric)
    (m_from_commodity m_to_currency : gnc_commodity) (rev : Bool) : GNCPrice :=
  let amount := if rev then amount⁻¹ else amount -- invert the amount
  let amount_conv := E.convert_half_up amount E.CURRENCY_DENOM
  { book := book
    commodity := if rev then m_to_currency else m_from_commodity
    currency := if rev then m_from_commodity else m_to_currency
    value := amount_conv
    time := date
    source := .PRICE_SOURCE_USER_PRICE
    typestr := PRICE_TYPE_LAST }

/-- The method `GncImportPrice::create_price (book, pdb, over)`. -/
def create_price {DB : Type} (E : Engine) (O : PriceDBOps DB) (self : GncImportPrice)
    (book : QofBook) (pdb : DB) (over : Bool) : CreatePriceOutcome DB :=
  -- Gently refuse to create the price if the basics are not set correctly
  let check := verify_essentials self
  if !check.isEmpty then { result := .ok .FAILED, pdb := pdb, calls := [] }
  else
    match self.m_date, self.m_amount, self.m_from_commodity, self.m_to_currency with
    | some m_date, some m_amount, some m_from_commodity, some m_to_currency =>
      let date : Timespec := { tv_sec := m_date, tv_nsec := 0 }
      let amount := m_amount
      let old_price := O.gnc_pricedb_lookup_day pdb m_from_commodity m_to_currency date
      let calls := [PriceDBCall.lookup_day m_from_commodity m_to_currency date]
      let rev := create_price_rev E m_amount m_from_commodity old_price
      -- Should old price be over writen
      let (old_price, ret_val, pdb, calls) :=
        match old_price, over with
        | some old, true =>
          (none, Result.REPLACED, (O.gnc_pricedb_remove_price pdb old).2,
            calls ++ [PriceDBCall.remove_price old])
        | old_price, _ => (old_price, Result.ADDED, pdb, calls)
      -- Create the new price
      match old_price with
      | none =>
        let price := create_price_new_price E book date amount m_from_commodity m_to_currency rev
        let (perr, pdb) := O.gnc_pricedb_add_price pdb price
        let calls := calls ++ [PriceDBCall.add_price price]
        if perr = false then
          { result := .error (.invalid_argument "Failed to create price from selected columns.")
            pdb := pdb, calls := calls }
        else { result := .ok ret_val, pdb := pdb, calls := calls }
      | some _ => { result := .ok .DUPLICATED, pdb := pdb, calls := calls }
    | _, _, _, _ =>
      -- not reached: `check` is empty only when the four optionals hold a value
      { result := .ok .FAILED, pdb := pdb, calls := [] }

/-! ## The commodity parser -/

/-- The commodity table of the current book
(`gnc_commodity_table_get_table (gnc_get_current_book ())`) with the functions
`parse_commodity_price_comm` calls on it, and glib's collation; their code is in
the engine and in glib, outside `gnc-price-props.cpp`, so each is a parameter. -/
structure CommodityTable where
  /-- The call `gnc_commodity_table_lookup_unique (table, unique_name)`. -/
  gnc_commodity_table_lookup_unique : String → Option gnc_commodity
  /-- The call `gnc_commodity_table_lookup (table, name_space, mnemonic)`. -/
  gnc_commodity_table_lookup : String → String → Option gnc_commodity
  /-- The call `gnc_commodity_table_get_namespaces (table)`, in list order. -/
  gnc_commodity_table_get_namespaces : List String
  /-- The call `g_utf8_collate (str1, str2)`. -/
  g_utf8_collate : String → String → Int

/-- The constant `GNC_COMMODITY_NS_CURRENCY`, the name the test passes for it. -/
def GNC_COMMODITY_NS_CURRENCY : String := "CURRENCY"

/-- Whether the text `s` starts with the text `pat`. -/
def starts_with : List Char → List Char → Bool
  | _, [] => true
  | [], _ :: _ => false
  | c :: cs, p :: ps => c == p && starts_with cs ps

/-- The call `str.find (pat)` of `std::string`, searching from `pos`: the position
of the first occurrence, `none` for `std::string::npos`. -/
def string_find_from (pat : List Char) : List Char → Nat → Option Nat
  | [], pos => if pat.isEmpty then some pos else none
  | c :: cs, pos =>
    if starts_with (c :: cs) pat then some pos else string_find_from pat cs (pos + 1)

/-- The call `str.find (pat)` of `std::string`. -/
def string_find (str pat : String) : Option Nat :=
  string_find_from pat.toList str.toList 0

/-- The loop of `parse_commodity_price_comm` over the namespaces ("try mnemonic in
all other namespaces"): a namespace that collates equal to the currency namespace
is skipped, the first lookup that finds a commodity ends the loop. -/
def parse_commodity_other_namespaces (T : CommodityTable) (comm_str : String) :
    List String → Option gnc_commodity
  | [] => none
  | ns_str :: next =>
    if T.g_utf8_collate ns_str GNC_COMMODITY_NS_CURRENCY = 0 then
      parse_commodity_other_namespaces T comm_str next -- continue
    else
      match T.gnc_commodity_table_lookup ns_str comm_str with
      | some comm => some comm -- break
      | none => parse_commodity_other_namespaces T comm_str next

/-- The function `parse_commodity_price_comm (comm_str)`; `.ok none` is the
returned `nullptr`. The condition `comm_str.find ("::")` converts the position
to `bool`: it is false exactly when the position is 0. -/
def parse_commodity_price_comm (T : CommodityTable) (comm_str : String) :
    Except Exn (Option gnc_commodity) :=
  if comm_str = "" then .ok none
  else
    let comm : Option gnc_commodity := none
    -- First try commodity as a unique name.
    let comm :=
      if string_find comm_str "::" ≠ some 0 then T.gnc_commodity_table_lookup_unique comm_str
      else comm
    -- Then try mnemonic in the currency namespace
    let comm :=
      match comm with
      | none => T.gnc_commodity_table_lookup GNC_COMMODITY_NS_CURRENCY comm_str
      | some c => some c
    -- If that fails try mnemonic in all other namespaces
    let comm :=
      match comm with
      | none => parse_commodity_other_namespaces T comm_str T.gnc_commodity_table_get_namespaces
      | some c => some c
    match comm with
    | none => .error (.invalid_argument "Value can't be parsed into a valid commodity.")
    | some c => .ok (some c)

/-! ## `GncImportPrice::set` and `GncImportPrice::reset` -/

/-- The message `e.what ()` of an exception. -/
def Exn.what : Exn → String
  | .invalid_argument what => what
  | .out_of_range what => what

/-- The position of a column type in the enumeration `GncPricePropType`, the
key order of the map `m_errors`. -/
def GncPricePropType.toNat : GncPricePropType → Nat
  | .NONE => 0
  | .DATE => 1
  | .AMOUNT => 2
  | .FROM_COMMODITY => 3
  | .TO_CURRENCY => 4

/-- The lookup `m_errors.find (prop_type)`: the error stored for a column type. -/
def errors_find (prop_type : GncPricePropType) :
    List (GncPricePropType × String) → Option String
  | [] => none
  | (k, v) :: rest => if k = prop_type then some v else errors_find prop_type rest

/-- The call `m_errors.erase (prop_type)`. -/
def errors_erase (prop_type : GncPricePropType) :
    List (GncPricePropType × String) → List (GncPricePropType × String)
  | [] => []
  | (k, v) :: rest =>
    if k = prop_type then errors_erase prop_type rest
    else (k, v) :: errors_erase prop_type rest

/-- The call `m_errors.emplace (prop_type, err_str)`: nothing is inserted when the
key is present, else the pair is inserted at its place in key order. -/
def errors_emplace (prop_type : GncPricePropType) (err_str : String) :
    List (GncPricePropType × String) → List (GncPricePropType × String)
  | [] => [(prop_type, err_str)]
  | (k, v) :: rest =>
    if k = prop_type then (k, v) :: rest
    else if prop_type.toNat < k.toNat then (prop_type, err_str) :: (k, v) :: rest
    else (k, v) :: errors_emplace prop_type err_str rest

/-- The `try` block of `GncImportPrice::set`: the exception it ends with, if
any, and the member variables at that point. -/
def set_try_block (E : Engine) (T : CommodityTable) (self : GncImportPrice)
    (prop_type : GncPricePropType) (value : String) : Except Exn Unit × GncImportPrice :=
  -- Drop any existing error for the prop_type we're about to set
  let self := { self with m_errors := errors_erase prop_type self.m_errors }
  match prop_type with
  | .DATE =>
    let self := { self with m_date := none }
    match parse_date_price E value self.m_date_format with -- Throws if parsing fails
    | .error e => (.error e, self)
    | .ok date => (.ok (), { self with m_date := some date })
  | .AMOUNT =>
    let self := { self with m_amount := none }
    match parse_amount_price E value self.m_currency_format with -- Throws if parsing fails
    | .error e => (.error e, self)
    | .ok amount => (.ok (), { self with m_amount := some amount })
  | .FROM_COMMODITY =>
    let self := { self with m_from_commodity := none }
    match parse_commodity_price_comm T value with -- Throws if parsing fails
    | .error e => (.error e, self)
    | .ok none => (.ok (), self)
    | .ok (some comm) => (.ok (), { self with m_from_commodity := some comm })
  | .TO_CURRENCY =>
    let self := { self with m_to_currency := none }
    match parse_commodity_price_comm T value with -- Throws if parsing fails
    | .error e => (.error e, self)
    | .ok none => (.ok (), self)
    | .ok (some comm) =>
      if E.gnc_commodity_is_currency comm != true then
        (.error (.invalid_argument
          "Value parsed into an invalid currency for a currency column type."), self)
      else (.ok (), { self with m_to_currency := some comm })
  | .NONE =>
    -- Issue a warning for all other prop_types.
    (.ok (), self)

/-- The method `GncImportPrice::set (prop_type, value)`: the exception it throws,
if any, and the member variables afterwards. Both `catch` clauses
(`std::invalid_argument`, `std::out_of_range`) do the same. -/
def GncImportPrice.set (E : Engine) (T : CommodityTable) (self : GncImportPrice)
    (prop_type : GncPricePropType) (value : String) : Except Exn Unit × GncImportPrice :=
  match set_try_block E T self prop_type value with
  | (.ok (), self) => (.ok (), self)
  | (.error e, self) =>
    let err_str := gnc_price_col_type_strs prop_type ++ " could not be understood.\n" ++ e.what
    (.error (.invalid_argument err_str),
      { self with m_errors := errors_emplace prop_type err_str self.m_errors })

/-- The method `GncImportPrice::reset (prop_type)`: the exception it throws, if
any, and the member variables afterwards. -/
def GncImportPrice.reset (E : Engine) (T : CommodityTable) (self : GncImportPrice)
    (prop_type : GncPricePropType) : Except Exn Unit × GncImportPrice :=
  match GncImportPrice.set E T self prop_type "" with
  | (.ok (), self) => (.ok (), self)
  | (.error _, self) =>
    -- Set with an empty string will effectively clear the property
    -- but can also set an error for the property. Clear that error here.
    (.ok (), { self with m_errors := errors_erase prop_type self.m_errors })

/-! ## Sequences of calls on a `GncImportPrice` -/

/-- A newly constructed `GncImportPrice (date_format, currency_format)`: the
constructor stores the two formats, every optional is unset and no error is
stored. -/
def GncImportPrice.fresh (date_format : Fin 5) (currency_format : Int) : GncImportPrice where
  m_date_format := date_format
  m_currency_format := currency_format
  m_date := none
  m_amount := none
  m_from_commodity := none
  m_to_currency := none
  m_errors := []

/-- Whether the optional of a column type holds a value; `NONE` has no optional. -/
def GncImportPrice.is_set (self : GncImportPrice) : GncPricePropType → Bool
  | .NONE => false
  | .DATE => self.m_date.isSome
  | .AMOUNT => self.m_amount.isSome
  | .FROM_COMMODITY => self.m_from_commodity.isSome
  | .TO_CURRENCY => self.m_to_currency.isSome

/-- A call of `set` or of `reset` made by the user of a `GncImportPrice`. -/
inductive PriceCall where
  | set (prop_type : GncPricePropType) (value : String)
  | reset (prop_type : GncPricePropType)

/-- The member variables after one call, whether it threw or not (the caller
catches what `set` throws and goes on with the same object). -/
def GncImportPrice.after_call (E : Engine) (T : CommodityTable) (self : GncImportPrice) :
    PriceCall → GncImportPrice
  | .set prop_type value => (GncImportPrice.set E T self prop_type value).2
  | .reset prop_type => (GncImportPrice.reset E T self prop_type).2

/-- The member variables after a sequence of calls, made in list order. -/
def GncImportPrice.after_calls (E : Engine) (T : CommodityTable) (self : GncImportPrice)
    (calls : List PriceCall) : GncImportPrice :=
  calls.foldl (GncImportPrice.after_call E T) self

/-! ## The stock transaction assistant

The model class `StockAssistantModel` is defined in
`gnucash/gnome/assistant-stock-transaction.cpp`, which the test includes; the
definitions of this section follow the specification's description of the
model. -/

/-- An `Account*`. -/
abbrev Account := Nat

/-- Modelled from the spec: the marking of a field role of a transaction kind
("each marked required / optional / disabled"); the code that defines the
transaction kinds, `assistant-stock-transaction.cpp`, is missing. -/
inductive FieldStatus where
  | required | optional | disabled
  deriving DecidableEq, Repr

/-- Modelled from the spec: a TransactionTypeKind, missing with
`assistant-stock-transaction.cpp` ("Each kind carries: a human label, and a fixed
set of field roles it activates (stock-amount, stock-value, cash-value, fees,
fees-capitalize-flag, dividend-value, capital-gains-value) each marked required /
optional / disabled"). The spec names no debit or credit side for the legs, so
the side on which a leg's value enters the balance (`1` for a debit, `-1` for a
credit) is a field of the kind. -/
structure TransactionTypeKind where
  label : String
  stock_amount : FieldStatus
  stock_value : FieldStatus
  cash_value : FieldStatus
  fees_value : FieldStatus
  fees_capitalize : FieldStatus
  dividend_value : FieldStatus
  capgains_value : FieldStatus
  stock_side : Int
  cash_side : Int
  fees_side : Int
  dividend_side : Int
  capgains_side : Int
  deriving DecidableEq

/-- Modelled from the spec: a split descriptor of the missing
`assistant-stock-transaction.cpp` ("one leg of a double-entry posting, carrying a
signed quantity and/or monetary value against one account"). -/
structure SplitInfo where
  account : Account
  amount : GncNumeric
  value : GncNumeric
  deriving DecidableEq

/-- Modelled from the spec: the session state StockAssistantModel of the missing
`assistant-stock-transaction.cpp` (the fields of the spec's data model); an
`Option` is a field the caller has not populated, `txn_type` the selected
transaction type. -/
structure StockAssistantModel where
  stock_account : Account
  txn_type : Option TransactionTypeKind := none
  transaction_date : Option time64 := none
  transaction_description : String := ""
  stock_amount : Option GncNumeric := none
  stock_value : Option GncNumeric := none
  cash_value : Option GncNumeric := none
  fees_value : Option GncNumeric := none
  dividend_value : Option GncNumeric := none
  capgains_value : Option GncNumeric := none
  fees_capitalize : Bool := false
  cash_account : Option Account := none
  fees_account : Option Account := none
  dividend_account : Option Account := none
  capgains_account : Option Account := none
  /-- The current type table; `none` while no table has been built. -/
  txn_types : Option (List TransactionTypeKind) := none
  /-- The transaction date the type table was built for. -/
  txn_types_date : Option time64 := none
  /-- The splits persisted by the last successful `generate_list_of_splits`. -/
  list_of_splits : Option (List SplitInfo) := none

/-- Modelled from the spec: the value of a field under its role, for the
missing `generate_list_of_splits`: nothing for a disabled role or an optional
field left unset, an error for a required field left unset ("Fails when ... a
required field per 4.1's role table is unset"). -/
def field_under_role (name : String) (status : FieldStatus) (field : Option GncNumeric) :
    Except String (Option GncNumeric) :=
  match status, field with
  | .disabled, _ => .ok none
  | .optional, none => .ok none
  | .required, none => .error ("Error: " ++ name ++ " is required")
  | _, some v => .ok (some v)

/-- Modelled from the spec: one money leg of the missing
`generate_list_of_splits` (cash, fees, dividend or capital gains): no split when
the role is not active, an error when the role is active and its account is not
set ("each tied to an account reference ... that must be set when the
corresponding field role is active"), else one split of the rounded value on the
kind's side. -/
def money_leg (round : GncNumeric → GncNumeric) (name : String) (status : FieldStatus)
    (side : Int) (field : Option GncNumeric) (account : Option Account) :
    Except String (List SplitInfo) := do
  match ← field_under_role name status field with
  | none => pure []
  | some v =>
    match account with
    | none => .error ("Error: " ++ name ++ " has no account")
    | some acct => pure [{ account := acct, amount := side * round v, value := side * round v }]

/-- Modelled from the spec: the legs of the missing `generate_list_of_splits`
before the balance check ("one split per active account leg: stock leg (amount =
stock_amount, value = stock_value, optionally adjusted by capitalized fees), cash
leg, fees leg (only if role active and not capitalized - or merged into stock leg
if capitalized), dividend leg, capital-gains leg"); it fails when "fees-capitalize
interacts with a type that forbids capitalization". -/
def implied_splits (round : GncNumeric → GncNumeric) (kind : TransactionTypeKind)
    (m : StockAssistantModel) : Except String (List SplitInfo) := do
  let stock_amount ← field_under_role "stock amount" kind.stock_amount m.stock_amount
  let stock_value ← field_under_role "stock value" kind.stock_value m.stock_value
  let fees ← field_under_role "fees" kind.fees_value m.fees_value
  let capitalized := fees.isSome && m.fees_capitalize
  if capitalized && kind.fees_capitalize == .disabled then
    .error "Error: fees cannot be capitalized for this transaction type"
  else
    let capitalized_fees : GncNumeric :=
      if capitalized then kind.fees_side * round (fees.getD 0) else 0
    let stock_leg : List SplitInfo :=
      if stock_amount.isSome || stock_value.isSome || capitalized then
        [{ account := m.stock_account
           amount := stock_amount.getD 0
           value := kind.stock_side * round (stock_value.getD 0) + capitalized_fees }]
      else []
    let cash_leg ← money_leg round "cash" kind.cash_value kind.cash_side m.cash_value m.cash_account
    let fees_leg ←
      if capitalized then pure []
      else money_leg round "fees" kind.fees_value kind.fees_side m.fees_value m.fees_account
    let dividend_leg ← money_leg round "dividend" kind.dividend_value kind.dividend_side
      m.dividend_value m.dividend_account
    let capgains_leg ← money_leg round "capital gains" kind.capgains_value kind.capgains_side
      m.capgains_value m.capgains_account
    pure (stock_leg ++ cash_leg ++ fees_leg ++ dividend_leg ++ capgains_leg)

/-- Modelled from the spec: the method `generate_list_of_splits` of the missing
`assistant-stock-transaction.cpp`, returning (success, summary, splits) ("Fails
when: no type selected, a required field per 4.1's role table is unset, a
monetary field fails to balance (sum of implied splits ≠ 0 after rounding), or
fees-capitalize interacts with a type that forbids capitalization"). `round` is
the rounding of a monetary value, which the spec leaves open. -/
def generate_list_of_splits (round : GncNumeric → GncNumeric) (m : StockAssistantModel) :
    Bool × String × List SplitInfo :=
  match m.txn_type with
  | none => (false, "Error: no transaction type selected", [])
  | some kind =>
    match implied_splits round kind m with
    | .error msg => (false, msg, [])
    | .ok splits =>
      if (splits.map SplitInfo.value).sum ≠ 0 then
        (false, "Error: debits and credits are not balanced", [])
      else (true, kind.label ++ ": " ++ m.transaction_description, splits)

/-- Modelled from the spec: the model after a call of the missing
`generate_list_of_splits`, which persists the splits of a successful generation
for `create_transaction` ("Fails if `generate_list_of_splits` has not been called
successfully first (no persisted splits to post)"). -/
def generate_list_of_splits_state (round : GncNumeric → GncNumeric) (m : StockAssistantModel) :
    StockAssistantModel :=
  { m with
    list_of_splits :=
      if (generate_list_of_splits round m).1 then some (generate_list_of_splits round m).2.2
      else none }

/-- Modelled from the spec: the sign of the bound account's balance, by which the
missing Transaction-Type Taxonomy is keyed ("keyed by signed-zero/positive/negative
balance classification"). -/
def balance_sign (balance : GncNumeric) : Int :=
  if 0 < balance then 1 else if balance < 0 then -1 else 0

/-- Modelled from the spec: the method `maybe_reset_txn_types` of the missing
`assistant-stock-transaction.cpp` ("true iff the type table was stale (first call,
or transaction_date's fiscal-year context changed since the last reset) and has
now been rebuilt; false if already current. Rebuilding re-derives the table from
4.1 using the bound account's current balance sign"). The context of a date is
the date itself, as in the spec's state machine ("changing transaction_date
returns to TableStale"); a rebuild leaves no type selected ("TableCurrent,
NoType"). `applicable_types` is the table lookup of 4.1 and `balance` the balance
read from the ledger. -/
def maybe_reset_txn_types (applicable_types : Int → List TransactionTypeKind)
    (balance : GncNumeric) (m : StockAssistantModel) : Bool × StockAssistantModel :=
  if m.txn_types.isSome ∧ m.txn_types_date = m.transaction_date then (false, m)
  else
    (true,
      { m with
        txn_types := some (applicable_types (balance_sign balance))
        txn_types_date := m.transaction_date
        txn_type := none
        list_of_splits := none })

/-- Modelled from the spec: the transaction `create_transaction` of the missing
`assistant-stock-transaction.cpp` commits ("a new transaction whose splits are
exactly those generated, dated `transaction_date`, described by
`transaction_description`"). -/
structure Transaction where
  date : Option time64
  description : String
  splits : List SplitInfo
  deriving DecidableEq

/-- Modelled from the spec: the external ledger as `create_transaction` uses it
("commit a new transaction"), over a ledger state `L`; posting answers `none`
when the ledger refuses. -/
structure LedgerOps (L : Type) where
  post_transaction : L → Transaction → Option L

/-- What a call of `create_transaction` leaves behind: the success flag, the
transaction handle, the ledger afterwards and the transactions it handed to the
ledger. -/
structure CreateTransactionOutcome (L : Type) where
  success : Bool
  txn : Option Transaction
  ledger : L
  post_calls : List Transaction

/-- Modelled from the spec: the method `create_transaction` of the missing
`assistant-stock-transaction.cpp` ("Fails if `generate_list_of_splits` has not
been called successfully first (no persisted splits to post), or if posting to
the external ledger fails. On success, commits a new transaction whose splits are
exactly those generated"). -/
def create_transaction {L : Type} (O : LedgerOps L) (m : StockAssistantModel) (ledger : L) :
    CreateTransactionOutcome L :=
  match m.list_of_splits with
  | none => { success := false, txn := none, ledger := ledger, post_calls := [] }
  | some splits =>
    let txn : Transaction :=
      { date := m.transaction_date, description := m.transaction_description, splits := splits }
    match O.post_transaction ledger txn with
    | none => { success := false, txn := none, ledger := ledger, post_calls := [txn] }
    | some ledger => { success := true, txn := some txn, ledger := ledger, post_calls := [txn] }

/-! ## The fixture of the stock assistant test -/

/-- The `struct Tests` of the test: one row of the fixture, money in hundredths. -/
structure Tests where
  type_idx : Nat
  dd : Nat
  mm : Nat
  yy : Nat
  desc : String
  stock_amt : Int
  stock_val : Int
  cash_val : Int
  capitalize : Bool
  fees_val : Int
  divi_val : Int
  capg_val : Int
  new_bal : Int

/-- The fixture `easyTestCase`. -/
def easyTestCase : List Tests :=
  [ -- bal=0. next line is "open long".
    ⟨0, 1, 7, 2019, "Buy", 100, 2000000, 2000995, true, 995, 0, 0, 100⟩,
    -- bal>0. next lines are long_types
    ⟨0, 11, 12, 2019, "Buy", 50, 1600000, 1600995, true, 995, 0, 0, 150⟩,
    ⟨1, 18, 3, 2020, "Sell", 75, 1200000, 1199005, false, 995, 0, -600995, 75⟩,
    ⟨0, 1, 4, 2020, "Buy", 250, 4200000, 4200995, true, 995, 0, 0, 325⟩,
    ⟨3, 16, 4, 2020, "ROC", 0, 250000, 250000, true, 0, 0, 0, 325⟩,
    ⟨0, 2, 5, 2020, "Buy", 125, 4750000, 4750000, true, 0, 0, 0, 450⟩,
    ⟨5, 11, 5, 2020, "Split 2:1", 900, 0, 0, true, 0, 0, 0, 900⟩,
    ⟨1, 21, 5, 2020, "Sell", 135, 2150000, 2149005, false, 995, 0, 574702, 765⟩,
    ⟨0, 3, 6, 2020, "Buy", 150, 2100000, 2100000, true, 0, 0, 0, 915⟩,
    ⟨1, 10, 6, 2020, "Sell", 915, 12810000, 12809005, false, 995, 0, 1783309, 0⟩,
    -- bal=0. next line is "open short".
    ⟨1, 10, 6, 2020, "Short Sell", 85, 1190000, 1189005, true, 995, 0, 0, -85⟩,
    -- bal<0. next lines are short_types
    ⟨0, 15, 6, 2020, "Short Sell", 65, 1105000, 1104005, true, 995, 0, 0, -150⟩,
    ⟨1, 16, 6, 2020, "Cover Buy", 50, 500000, 500995, false, 995, 0, -264337, -100⟩,
    ⟨5, 17, 6, 2020, "Split 2:1", -200, 0, 0, false, 0, 0, 0, -200⟩,
    ⟨6, 18, 6, 2020, "Reverse Split", -100, 0, 0, false, 0, 0, 0, -100⟩,
    ⟨2, 19, 6, 2020, "Comp Dividend", 0, 0, 50000, false, 0, 50000, 0, -100⟩,
    ⟨3, 19, 6, 2020, "Comp ROC", 0, 250000, 250000, false, 0, 0, 0, -100⟩,
    ⟨4, 19, 6, 2020, "Comp ND", 0, 20000, 0, false, 0, 20000, 0, -100⟩,
    ⟨1, 20, 6, 2020, "Cover Buy", 100, 800000, 800498, false, 498, 0, -498673, 0⟩,
    -- bal=0. next line is "open long".
    ⟨0, 20, 6, 2020, "Buy", 100, 800000, 800498, true, 498, 0, 0, 100⟩,
    -- bal>0. next lines are long_types
    ⟨2, 21, 6, 2020, "Dividend", 0, 0, 7000, false, 0, 7000, 0, 100⟩,
    ⟨2, 25, 6, 2020, "Dividend", 0, 0, 11000, false, 0, 11000, 0, 100⟩,
    ⟨0, 25, 6, 2020, "+ Reinv", 1, 10000, 10000, false, 0, 0, 0, 101⟩,
    ⟨1, 26, 6, 2020, "Sell remainder", 1, 10000, 10000, false, 0, 0, 1975, 100⟩,
    ⟨6, 26, 6, 2020, "Reverse Split 1:2", 50, 0, 0, false, 0, 0, 0, 50⟩,
    ⟨4, 27, 6, 2020, "ND", 0, 10000, 0, false, 0, 10000, 0, 50⟩ ]

/-- The model as the test body populates it from a fixture row (the loop of
`TEST_P (Stock_AssistantTest, DoesStock_Assistant)`), with `kind` the type that
`set_txn_type (t.type_idx)` selects and `date` the value of
`gnc_dmy2time64 (t.dd, t.mm, t.yy)`. Account 1 is the stock account, 2 cash,
3 fees, 4 dividend, 5 capital gains. -/
def test_model (kind : TransactionTypeKind) (date : time64) (t : Tests) : StockAssistantModel where
  stock_account := 1
  txn_type := some kind
  transaction_date := some date
  transaction_description := t.desc
  stock_amount := some ((t.stock_amt * 100 : Int) / (100 : Int))
  stock_value := some ((t.stock_val : Int) / (100 : Int))
  cash_value := some ((t.cash_val : Int) / (100 : Int))
  cash_account := some 2
  fees_account := some 3
  fees_capitalize := t.capitalize
  fees_value := some ((t.fees_val : Int) / (100 : Int))
  capgains_account := some 5
  capgains_value := some ((t.capg_val : Int) / (100 : Int))
  dividend_account := some 4
  dividend_value := some ((t.divi_val : Int) / (100 : Int))

/-! ## Sample inputs -/

/-- The kind of the fixture's rows named "Buy" on a long position: shares and
their value are debited to the stock account, cash is credited, fees are
optional and may be capitalized, dividend and capital gains take no part. -/
def sampleBuy : TransactionTypeKind where
  label := "Buy"
  stock_amount := .required
  stock_value := .required
  cash_value := .required
  fees_value := .optional
  fees_capitalize := .optional
  dividend_value := .disabled
  capgains_value := .disabled
  stock_side := 1
  cash_side := -1
  fees_side := 1
  dividend_side := -1
  capgains_side := -1

/-- The first row of the fixture `easyTestCase`, as the test populates the model:
Buy 100 shares, stock value 20000.00, cash 20009.95, capitalized fees 9.95.
Account 1 is the stock account, 2 cash, 3 fees, 4 dividend, 5 capital gains. -/
def sampleBuyModel : StockAssistantModel where
  stock_account := 1
  txn_type := some sampleBuy
  transaction_date := some 1561939200
  transaction_description := "Buy"
  stock_amount := some (100 * 100 / 100)
  stock_value := some (2000000 / 100)
  cash_value := some (2000995 / 100)
  fees_value := some (995 / 100)
  dividend_value := some (0 / 100)
  capgains_value := some (0 / 100)
  fees_capitalize := true
  cash_account := some 2
  fees_account := some 3
  dividend_account := some 4
  capgains_account := some 5



/-- A sample engine: the calendar conversion packs day, month and year into one
number, commodities below 100 are currencies, equivalence is equality, and
rounding is to the nearest multiple of `1 / denom`, halves away from zero. -/
def sampleEngine : Engine where
  current_year := 2026
  gnc_dmy2timespec_neutral := fun day month year => year * 10000 + month * 100 + day
  strip_currency_symbols := fun s => s
  xaccParseAmount := fun _ => none
  xaccParseAmountExtended := fun _ _ _ _ _ _ => none
  unassigned_val := 0
  gnc_commodity_is_currency := fun c => decide (c < 100)
  gnc_commodity_equiv := fun a b => decide (a = b)
  convert_half_up := fun q denom =>
    (if 0 ≤ q then ⌊q * denom + 1 / 2⌋ else -⌊-q * denom + 1 / 2⌋ : Int) / (denom : ℚ)
  CURRENCY_DENOM := 10000

/-- A sample price database: the list of its prices. Lookup finds the first
price of the day between the two commodities, in either direction; removal
deletes the price; addition refuses a price whose value is not positive. -/
def samplePriceDB : PriceDBOps (List GNCPrice) where
  gnc_pricedb_lookup_day := fun db c cur t =>
    db.find? (fun p => decide (p.time = t) &&
      ((decide (p.commodity = c) && decide (p.currency = cur)) ||
        (decide (p.commodity = cur) && decide (p.currency = c))))
  gnc_pricedb_remove_price := fun db p => (decide (p ∈ db), db.erase p)
  gnc_pricedb_add_price := fun db p => if 0 < p.value then (true, db ++ [p]) else (false, db)

/-- A sample import row: 1 unit of commodity 500 (not a currency) costs 12.5 of
currency 1, on day 1000. -/
def sampleRow : GncImportPrice where
  m_date_format := 0
  m_currency_format := 1
  m_date := some 1000
  m_amount := some (25 / 2)
  m_from_commodity := some 500
  m_to_currency := some 1
  m_errors := []

/-- A sample currency row: 1 unit of currency 2 costs 0.25 of currency 1, on
day 1000. -/
def sampleCurrencyRow : GncImportPrice where
  m_date_format := 0
  m_currency_format := 1
  m_date := some 1000
  m_amount := some (1 / 4)
  m_from_commodity := some 2
  m_to_currency := some 1
  m_errors := []

/-- A price of the sample row's pair and day, as a database may already hold it. -/
def sampleOldPrice : GNCPrice where
  book := 0
  commodity := 500
  currency := 1
  value := 12
  time := { tv_sec := 1000, tv_nsec := 0 }
  source := .PRICE_SOURCE_FQ
  typestr := "last"

/-- The commodities of the sample table: namespace, mnemonic, commodity. The
currencies USD and EUR, a stock, a fund whose mnemonic is also a currency code,
and a security in the namespace with the empty name. -/
def sampleCommodities : List (String × String × gnc_commodity) :=
  [("CURRENCY", "USD", 1), ("CURRENCY", "EUR", 2), ("NASDAQ", "AAPL", 500),
   ("FUND", "USD", 501), ("", "SPY", 502)]

/-- A sample commodity table over `sampleCommodities`: the unique name of a
commodity is its namespace, "::" and its mnemonic; the namespaces are listed in
the order of registration; collation compares the texts. -/
def sampleTable : CommodityTable where
  gnc_commodity_table_lookup_unique := fun unique_name =>
    (sampleCommodities.find? (fun c => c.1 ++ "::" ++ c.2.1 == unique_name)).map (·.2.2)
  gnc_commodity_table_lookup := fun name_space mnemonic =>
    (sampleCommodities.find? (fun c => c.1 == name_space && c.2.1 == mnemonic)).map (·.2.2)
  gnc_commodity_table_get_namespaces := ["CURRENCY", "NASDAQ", "FUND", ""]
  g_utf8_collate := fun a b => if a = b then 0 else if a.toList < b.toList then -1 else 1

/-- The sample engine with a numeric grammar for the decimal-period format that
reads the text "12.50" and nothing else. -/
def sampleEngineDecimal : Engine :=
  { sampleEngine with
    xaccParseAmountExtended := fun str _ decimal_point _ _ _ =>
      if str = "12.50" ∧ decimal_point = '.' then some (25 / 2) else none }

/-- The sample row with nothing parsed yet and an error stored for every column
type, as failed calls of `set` leave them. -/
def sampleRowWithErrors : GncImportPrice where
  m_date_format := 1
  m_currency_format := 1
  m_date := none
  m_amount := none
  m_from_commodity := none
  m_to_currency := none
  m_errors := [(.DATE, "old date error"), (.AMOUNT, "old amount error"),
    (.FROM_COMMODITY, "old commodity error"), (.TO_CURRENCY, "old currency error")]

/-- A sample ledger: the list of the transactions posted so far; posting never
fails. -/
def sampleLedger : LedgerOps (List Transaction) where
  post_transaction := fun ledger txn => some (ledger ++ [txn])

/-- The balance of an account in the sample ledger: the sum of the amounts of
the splits posted to it. -/
def sampleBalance (ledger : List Transaction) (account : Account) : GncNumeric :=
  (ledger.map (fun txn =>
    ((txn.splits.filter (fun s => s.account == account)).map SplitInfo.amount).sum)).sum

/-- The first row of the fixture `easyTestCase`. -/
def sampleBuyRow : Tests :=
  ⟨0, 1, 7, 2019, "Buy", 100, 2000000, 2000995, true, 995, 0, 0, 100⟩

/-- A sample type table: whatever the balance, the only type is `sampleBuy`. -/
def sampleTypes : Int → List TransactionTypeKind := fun _ => [sampleBuy]

/-- The model of `test_failure_modes` before its first call: bound to the stock
account, with the transaction date set to 1 January 2022 and nothing else. -/
def sampleFreshModel : StockAssistantModel where
  stock_account := 1
  transaction_date := some 1640995200

/-- The sample row with the amount -1: the price built from it has a value that
is not positive, which the sample price database refuses. -/
def sampleRefusedRow : GncImportPrice :=
  { sampleRow with m_amount := some (-1) }

/-! ## Theorems: `verify_essentials` and `create_price` -/

/-- With the four optionals set, `verify_essentials` returns the empty string. -/
theorem verify_essentials_of_set (self : GncImportPrice) (d : time64) (a : GncNumeric)
    (f t : gnc_commodity) (hd : self.m_date = some d) (ha : self.m_amount = some a)
    (hf : self.m_from_commodity = some f) (ht : self.m_to_currency = some t) :
    verify_essentials self = "" := by
  simp [verify_essentials, hd, ha, hf, ht]

/-- With the four optionals set, `create_price` is the part after the check. -/
theorem create_price_of_set {DB : Type} (E : Engine) (O : PriceDBOps DB) (self : GncImportPrice)
    (book : QofBook) (pdb : DB) (over : Bool) (d : time64) (a : GncNumeric)
    (f t : gnc_commodity) (hd : self.m_date = some d) (ha : self.m_amount = some a)
    (hf : self.m_from_commodity = some f) (ht : self.m_to_currency = some t) :
    create_price E O self book pdb over =
      (let date : Timespec := { tv_sec := d, tv_nsec := 0 }
       let old_price := O.gnc_pricedb_lookup_day pdb f t date
       let rev := create_price_rev E a f old_price
       match old_price, over with
       | some old, true =>
         let price := create_price_new_price E book date a f t rev
         let added := O.gnc_pricedb_add_price (O.gnc_pricedb_remove_price pdb old).2 price
         { result := if added.1 = false then
             .error (.invalid_argument "Failed to create price from selected columns.")
             else .ok .REPLACED
           pdb := added.2
           calls := [.lookup_day f t date, .remove_price old, .add_price price] }
       | some _, false =>
         { result := .ok .DUPLICATED, pdb := pdb, calls := [.lookup_day f t date] }
       | none, _ =>
         let price := create_price_new_price E book date a f t rev
         let added := O.gnc_pricedb_add_price pdb price
         { result := if added.1 = false then
             .error (.invalid_argument "Failed to create price from selected columns.")
             else .ok .ADDED
           pdb := added.2
           calls := [.lookup_day f t date, .add_price price] }) := by
  have hv := verify_essentials_of_set self d a f t hd ha hf ht
  have he : ("" : String).isEmpty = true := by decide
  unfold create_price
  simp only [hv, hd, ha, hf, ht, he]
  cases hold : O.gnc_pricedb_lookup_day pdb f t { tv_sec := d, tv_nsec := 0 } with
  | none =>
    cases over <;> simp <;> split <;> simp_all
  | some old =>
    cases over
    · simp
    · simp; split <;> simp_all

/-- A successful `stoi` returns a value that is not negative. -/
theorem stoi_nonneg (s : List Char) (y : Int) (h : stoi s = .ok y) : 0 ≤ y := by
  unfold stoi at h
  simp only at h
  split_ifs at h
  cases h
  exact Int.natCast_nonneg _

/-- C2: with the four essentials set and a same-day price found by the lookup
for (from-commodity, to-currency), `create_price` with `over = false` returns
`DUPLICATED`, leaves the price database as it was, and makes no call on it
besides the lookup (no removal, no addition). -/
theorem create_price_duplicated {DB : Type} (E : Engine) (O : PriceDBOps DB)
    (self : GncImportPrice) (book : QofBook) (pdb : DB) (d : time64) (a : GncNumeric)
    (f t : gnc_commodity) (old : GNCPrice)
    (hd : self.m_date = some d) (ha : self.m_amount = some a)
    (hf : self.m_from_commodity = some f) (ht : self.m_to_currency = some t)
    (hold : O.gnc_pricedb_lookup_day pdb f t { tv_sec := d, tv_nsec := 0 } = some old) :
    (create_price E O self book pdb false).result = .ok .DUPLICATED ∧
    (create_price E O self book pdb false).pdb = pdb ∧
    (create_price E O self book pdb false).calls =
      [.lookup_day f t { tv_sec := d, tv_nsec := 0 }] := by
  rw [create_price_of_set E O self book pdb false d a f t hd ha hf ht]
  simp [hold]

/-- C2 at the sample row, with the database already holding a price of the day. -/
theorem create_price_duplicated_witness :
    (create_price sampleEngine samplePriceDB sampleRow 7 [sampleOldPrice] false).result
        = .ok .DUPLICATED ∧
    (create_price sampleEngine samplePriceDB sampleRow 7 [sampleOldPrice] false).pdb
        = [sampleOldPrice] ∧
    (create_price sampleEngine samplePriceDB sampleRow 7 [sampleOldPrice] false).calls
        = [.lookup_day 500 1 { tv_sec := 1000, tv_nsec := 0 }] :=
  create_price_duplicated sampleEngine samplePriceDB sampleRow 7 [sampleOldPrice] 1000 (25 / 2)
    500 1 sampleOldPrice rfl rfl rfl rfl (by decide)

/-- C3: with the four essentials set, a same-day price `old` found by the lookup
and a database that accepts the new price, `create_price` with `over = true`
returns `REPLACED`, and its calls on the database are, in this order: the
lookup, the removal of `old`, the addition of the one newly built price. The
database afterwards is the one left by that removal followed by that addition. -/
theorem create_price_replaced {DB : Type} (E : Engine) (O : PriceDBOps DB)
    (self : GncImportPrice) (book : QofBook) (pdb : DB) (d : time64) (a : GncNumeric)
    (f t : gnc_commodity) (old : GNCPrice)
    (hd : self.m_date = some d) (ha : self.m_amount = some a)
    (hf : self.m_from_commodity = some f) (ht : self.m_to_currency = some t)
    (hold : O.gnc_pricedb_lookup_day pdb f t { tv_sec := d, tv_nsec := 0 } = some old)
    (haccept : (O.gnc_pricedb_add_price (O.gnc_pricedb_remove_price pdb old).2
      (create_price_new_price E book { tv_sec := d, tv_nsec := 0 } a f t
        (create_price_rev E a f (some old)))).1 = true) :
    (create_price E O self book pdb true).result = .ok .REPLACED ∧
    (create_price E O self book pdb true).calls =
      [.lookup_day f t { tv_sec := d, tv_nsec := 0 },
       .remove_price old,
       .add_price (create_price_new_price E book { tv_sec := d, tv_nsec := 0 } a f t
         (create_price_rev E a f (some old)))] ∧
    (create_price E O self book pdb true).pdb =
      (O.gnc_pricedb_add_price (O.gnc_pricedb_remove_price pdb old).2
        (create_price_new_price E book { tv_sec := d, tv_nsec := 0 } a f t
          (create_price_rev E a f (some old)))).2 := by
  rw [create_price_of_set E O self book pdb true d a f t hd ha hf ht]
  simp [hold, haccept]

/-- C3 at the sample row: the old price of value 12 is removed, then the price
of value 12.5 is added. -/
theorem create_price_replaced_witness :
    (create_price sampleEngine samplePriceDB sampleRow 7 [sampleOldPrice] true).result
        = .ok .REPLACED ∧
    (create_price sampleEngine samplePriceDB sampleRow 7 [sampleOldPrice] true).calls =
      [.lookup_day 500 1 { tv_sec := 1000, tv_nsec := 0 },
       .remove_price sampleOldPrice,
       .add_price (create_price_new_price sampleEngine 7 { tv_sec := 1000, tv_nsec := 0 }
         (25 / 2) 500 1 (create_price_rev sampleEngine (25 / 2) 500 (some sampleOldPrice)))] ∧
    (create_price sampleEngine samplePriceDB sampleRow 7 [sampleOldPrice] true).pdb =
      (samplePriceDB.gnc_pricedb_add_price
        (samplePriceDB.gnc_pricedb_remove_price [sampleOldPrice] sampleOldPrice).2
        (create_price_new_price sampleEngine 7 { tv_sec := 1000, tv_nsec := 0 }
          (25 / 2) 500 1 (create_price_rev sampleEngine (25 / 2) 500 (some sampleOldPrice)))).2 :=
  create_price_replaced sampleEngine samplePriceDB sampleRow 7 [sampleOldPrice] 1000 (25 / 2)
    500 1 sampleOldPrice rfl rfl rfl rfl (by decide)
    (by norm_num [samplePriceDB, create_price_new_price, sampleEngine, create_price_rev])

/-- C4: with the four essentials set, no same-day price found by the lookup and a
database that accepts the addition, `create_price` returns `ADDED` whatever
`over` is, and its only calls on the database are the lookup and the addition of
one price. That price has the parsed date as its time, the source
`PRICE_SOURCE_USER_PRICE`, the type "last", and as value the resolved amount
(the amount, or its inverse for a currency quoted below 1) converted half-up to
`CURRENCY_DENOM`. -/
theorem create_price_added {DB : Type} (E : Engine) (O : PriceDBOps DB)
    (self : GncImportPrice) (book : QofBook) (pdb : DB) (over : Bool) (d : time64)
    (a : GncNumeric) (f t : gnc_commodity)
    (hd : self.m_date = some d) (ha : self.m_amount = some a)
    (hf : self.m_from_commodity = some f) (ht : self.m_to_currency = some t)
    (hnone : O.gnc_pricedb_lookup_day pdb f t { tv_sec := d, tv_nsec := 0 } = none)
    (haccept : (O.gnc_pricedb_add_price pdb
      (create_price_new_price E book { tv_sec := d, tv_nsec := 0 } a f t
        (create_price_rev E a f none))).1 = true) :
    ∃ price : GNCPrice,
      (create_price E O self book pdb over).result = .ok .ADDED ∧
      (create_price E O self book pdb over).calls =
        [.lookup_day f t { tv_sec := d, tv_nsec := 0 }, .add_price price] ∧
      (create_price E O self book pdb over).pdb = (O.gnc_pricedb_add_price pdb price).2 ∧
      price.time = { tv_sec := d, tv_nsec := 0 } ∧
      price.source = .PRICE_SOURCE_USER_PRICE ∧
      price.typestr = "last" ∧
      price.value = E.convert_half_up
        (if E.gnc_commodity_is_currency f = true ∧ a < 1 then a⁻¹ else a) E.CURRENCY_DENOM := by
  refine ⟨create_price_new_price E book { tv_sec := d, tv_nsec := 0 } a f t
    (create_price_rev E a f none), ?_⟩
  rw [create_price_of_set E O self book pdb over d a f t hd ha hf ht]
  simp only [hnone, haccept]
  refine ⟨by simp, by simp, by simp, ?_, ?_, ?_, ?_⟩
  · simp [create_price_new_price]
  · simp [create_price_new_price]
  · simp [create_price_new_price, PRICE_TYPE_LAST]
  · simp only [create_price_new_price, create_price_rev]
    by_cases hc : E.gnc_commodity_is_currency f = true <;> by_cases hlt : a < 1 <;>
      simp [hc, hlt]

/-- C4 at the sample row and the empty database, for `over = true`: one price of
value 12.5 is added. -/
theorem create_price_added_witness :
    ∃ price : GNCPrice,
      (create_price sampleEngine samplePriceDB sampleRow 7 [] true).result = .ok .ADDED ∧
      (create_price sampleEngine samplePriceDB sampleRow 7 [] true).calls =
        [.lookup_day 500 1 { tv_sec := 1000, tv_nsec := 0 }, .add_price price] ∧
      (create_price sampleEngine samplePriceDB sampleRow 7 [] true).pdb =
        (samplePriceDB.gnc_pricedb_add_price [] price).2 ∧
      price.time = { tv_sec := 1000, tv_nsec := 0 } ∧
      price.source = .PRICE_SOURCE_USER_PRICE ∧
      price.typestr = "last" ∧
      price.value = sampleEngine.convert_half_up
        (if sampleEngine.gnc_commodity_is_currency 500 = true ∧ (25 / 2 : ℚ) < 1
          then (25 / 2 : ℚ)⁻¹ else 25 / 2) sampleEngine.CURRENCY_DENOM :=
  create_price_added sampleEngine samplePriceDB sampleRow 7 [] true 1000 (25 / 2) 500 1
    rfl rfl rfl rfl (by decide)
    (by norm_num [samplePriceDB, create_price_new_price, sampleEngine, create_price_rev])

/-- C5: when `verify_essentials` returns a non-empty message, `create_price`
returns `FAILED` whatever `over` is, makes no call on the price database (no
lookup, no removal, no addition) and leaves it as it was. -/
theorem create_price_failed_without_essentials {DB : Type} (E : Engine) (O : PriceDBOps DB)
    (self : GncImportPrice) (book : QofBook) (pdb : DB) (over : Bool)
    (h : verify_essentials self ≠ "") :
    (create_price E O self book pdb over).result = .ok .FAILED ∧
    (create_price E O self book pdb over).calls = [] ∧
    (create_price E O self book pdb over).pdb = pdb := by
  have he : (verify_essentials self).isEmpty = false := by
    unfold verify_essentials at h ⊢
    split_ifs at h ⊢ <;> first | decide | exact absurd rfl h
  unfold create_price
  simp [he]

/-- C5 at the sample row with its date unset, and a database holding a price. -/
theorem create_price_failed_without_essentials_witness :
    (create_price sampleEngine samplePriceDB { sampleRow with m_date := none } 7
      [sampleOldPrice] true).result = .ok .FAILED ∧
    (create_price sampleEngine samplePriceDB { sampleRow with m_date := none } 7
      [sampleOldPrice] true).calls = [] ∧
    (create_price sampleEngine samplePriceDB { sampleRow with m_date := none } 7
      [sampleOldPrice] true).pdb = [sampleOldPrice] :=
  create_price_failed_without_essentials sampleEngine samplePriceDB
    { sampleRow with m_date := none } 7 [sampleOldPrice] true (by decide)

/-- C6: `verify_essentials` returns the message of the first unset field in the
order date, amount, to-currency, from-commodity, and it returns the empty string
if and only if all four fields are set. -/
theorem verify_essentials_first_missing (self : GncImportPrice) :
    (self.m_date = none → verify_essentials self = "No date column.") ∧
    (self.m_date ≠ none → self.m_amount = none →
      verify_essentials self = "No amount column.") ∧
    (self.m_date ≠ none → self.m_amount ≠ none → self.m_to_currency = none →
      verify_essentials self = "No 'Currency to' column.") ∧
    (self.m_date ≠ none → self.m_amount ≠ none → self.m_to_currency ≠ none →
      self.m_from_commodity = none → verify_essentials self = "No 'Commodity from' column.") ∧
    (verify_essentials self = "" ↔
      self.m_date ≠ none ∧ self.m_amount ≠ none ∧ self.m_to_currency ≠ none ∧
        self.m_from_commodity ≠ none) := by
  refine ⟨?_, ?_, ?_, ?_, ?_⟩
  · intro h; simp [verify_essentials, h]
  · intro h1 h2; simp [verify_essentials, h1, h2]
  · intro h1 h2 h3; simp [verify_essentials, h1, h2, h3]
  · intro h1 h2 h3 h4; simp [verify_essentials, h1, h2, h3, h4]
  · unfold verify_essentials
    split_ifs with h1 h2 h3 h4
    · simp [h1]
    · simp [h2]
    · simp [h3]
    · simp [h4]
    · simp [h1, h2, h3, h4]

/-- C7: when `create_price` returns `ADDED` or `REPLACED`, the last call on the
database adds a price that is inverted (commodity = to-currency, currency =
from-commodity, value converted from `1 / amount`) exactly when the
from-commodity is a currency and either the same-day price found has a currency
equivalent to the from-commodity or the amount is below 1; otherwise the price
has commodity = from-commodity, currency = to-currency and the value converted
from the amount itself. A from-commodity that is not a currency is never
inverted, whatever the amount. -/
theorem create_price_direction {DB : Type} (E : Engine) (O : PriceDBOps DB)
    (self : GncImportPrice) (book : QofBook) (pdb : DB) (over : Bool) (d : time64)
    (a : GncNumeric) (f t : gnc_commodity)
    (hd : self.m_date = some d) (ha : self.m_amount = some a)
    (hf : self.m_from_commodity = some f) (ht : self.m_to_currency = some t)
    (hres : (create_price E O self book pdb over).result = .ok .ADDED ∨
      (create_price E O self book pdb over).result = .ok .REPLACED) :
    ∃ price : GNCPrice,
      (create_price E O self book pdb over).calls.getLast? = some (.add_price price) ∧
      ((E.gnc_commodity_is_currency f = true ∧
          ((∃ old, O.gnc_pricedb_lookup_day pdb f t { tv_sec := d, tv_nsec := 0 } = some old ∧
              E.gnc_commodity_equiv (gnc_price_get_currency old) f = true) ∨ a < 1) →
        price.commodity = t ∧ price.currency = f ∧
          price.value = E.convert_half_up a⁻¹ E.CURRENCY_DENOM) ∧
       (¬ (E.gnc_commodity_is_currency f = true ∧
          ((∃ old, O.gnc_pricedb_lookup_day pdb f t { tv_sec := d, tv_nsec := 0 } = some old ∧
              E.gnc_commodity_equiv (gnc_price_get_currency old) f = true) ∨ a < 1)) →
        price.commodity = f ∧ price.currency = t ∧
          price.value = E.convert_half_up a E.CURRENCY_DENOM) ∧
       (E.gnc_commodity_is_currency f = false →
        price.commodity = f ∧ price.currency = t ∧
          price.value = E.convert_half_up a E.CURRENCY_DENOM)) := by
  rw [create_price_of_set E O self book pdb over d a f t hd ha hf ht] at hres ⊢
  refine ⟨create_price_new_price E book { tv_sec := d, tv_nsec := 0 } a f t
    (create_price_rev E a f (O.gnc_pricedb_lookup_day pdb f t { tv_sec := d, tv_nsec := 0 })), ?_, ?_⟩
  · cases hold : O.gnc_pricedb_lookup_day pdb f t { tv_sec := d, tv_nsec := 0 } with
    | none => simp [hold]
    | some old =>
      cases over
      · simp [hold] at hres
      · simp [hold]
  · simp only [create_price_new_price, create_price_rev]
    cases hold : O.gnc_pricedb_lookup_day pdb f t { tv_sec := d, tv_nsec := 0 } with
    | none =>
      by_cases hc : E.gnc_commodity_is_currency f = true <;> by_cases hlt : a < 1 <;>
        simp [hc, hlt]
    | some old =>
      by_cases hc : E.gnc_commodity_is_currency f = true <;> by_cases hlt : a < 1 <;>
        by_cases he : E.gnc_commodity_equiv (gnc_price_get_currency old) f = true <;>
        simp [hc, hlt, he]

/-- C7 at the sample currency row and the empty database: the amount 0.25 is
below 1 and the from-commodity is a currency, so the price added is inverted. -/
theorem create_price_direction_witness :
    ∃ price : GNCPrice,
      (create_price sampleEngine samplePriceDB sampleCurrencyRow 7 [] false).calls.getLast?
        = some (.add_price price) ∧
      ((sampleEngine.gnc_commodity_is_currency 2 = true ∧
          ((∃ old, samplePriceDB.gnc_pricedb_lookup_day [] 2 1 { tv_sec := 1000, tv_nsec := 0 }
                = some old ∧
              sampleEngine.gnc_commodity_equiv (gnc_price_get_currency old) 2 = true) ∨
            (1 / 4 : ℚ) < 1) →
        price.commodity = 1 ∧ price.currency = 2 ∧
          price.value = sampleEngine.convert_half_up (1 / 4 : ℚ)⁻¹ sampleEngine.CURRENCY_DENOM) ∧
       (¬ (sampleEngine.gnc_commodity_is_currency 2 = true ∧
          ((∃ old, samplePriceDB.gnc_pricedb_lookup_day [] 2 1 { tv_sec := 1000, tv_nsec := 0 }
                = some old ∧
              sampleEngine.gnc_commodity_equiv (gnc_price_get_currency old) 2 = true) ∨
            (1 / 4 : ℚ) < 1)) →
        price.commodity = 2 ∧ price.currency = 1 ∧
          price.value = sampleEngine.convert_half_up (1 / 4 : ℚ) sampleEngine.CURRENCY_DENOM) ∧
       (sampleEngine.gnc_commodity_is_currency 2 = false →
        price.commodity = 2 ∧ price.currency = 1 ∧
          price.value = sampleEngine.convert_half_up (1 / 4 : ℚ) sampleEngine.CURRENCY_DENOM)) :=
  create_price_direction sampleEngine samplePriceDB sampleCurrencyRow 7 [] false 1000 (1 / 4)
    2 1 rfl rfl rfl rfl
    (Or.inl (by
      rw [create_price_of_set sampleEngine samplePriceDB sampleCurrencyRow 7 [] false 1000
        (1 / 4) 2 1 rfl rfl rfl rfl]
      norm_num [samplePriceDB, create_price_new_price, sampleEngine, create_price_rev]))

/-- C8: under the three formats with a year (indices 0, 1, 2), the year handed to
the calendar conversion is the parsed year value `y` folded with the pivot 69:
`2000 + y` for `y < 69`, `1900 + y` for `69 ≤ y ≤ 99`, and `y` itself from 100 on;
a value below 100 therefore lands in [1969, 2068], with 68 giving 2068 and 69
giving 1969. -/
theorem parse_date_price_two_digit_year (E : Engine) (date_str : String) (format : Fin 5)
    (what : smatch) (day month y : Int) (hformat : format.val < 3)
    (hmatch : regex_search (date_regex_price format) date_str.toList = some what)
    (hday : stoi (what.str .DAY) = .ok day) (hmonth : stoi (what.str .MONTH) = .ok month)
    (hyear : stoi (what.str .YEAR) = .ok y) :
    ∃ year : Int,
      parse_date_price E date_str format =
        (if E.gnc_dmy2timespec_neutral day month year = INT64_MAX then
          .error (.invalid_argument
            "Value can't be parsed into a date using the selected date format.")
         else .ok (E.gnc_dmy2timespec_neutral day month year)) ∧
      (y < 69 → year = 2000 + y) ∧
      (69 ≤ y → y ≤ 99 → year = 1900 + y) ∧
      (100 ≤ y → year = y) ∧
      (y < 100 → 1969 ≤ year ∧ year ≤ 2068) ∧
      (y = 68 → year = 2068) ∧
      (y = 69 → year = 1969) := by
  have hy0 : 0 ≤ y := stoi_nonneg _ _ hyear
  have h3 : ¬ (3 ≤ format.val) := by omega
  refine ⟨handle_two_digit_year y, ?_, ?_, ?_, ?_, ?_, ?_, ?_⟩
  · unfold parse_date_price
    simp only [hmatch, hday, hmonth, hyear, hformat]
    simp [h3, bind, Except.bind, pure, Except.pure]
  all_goals unfold handle_two_digit_year
  all_goals intros
  all_goals split_ifs <;> omega

/-- C8 at the text "1.2.68" under the format d-m-y and the sample engine: the
year handed to the calendar conversion is 2068. -/
theorem parse_date_price_two_digit_year_witness :
    ∃ year : Int,
      parse_date_price sampleEngine "1.2.68" 1 =
        (if sampleEngine.gnc_dmy2timespec_neutral 1 2 year = INT64_MAX then
          .error (.invalid_argument
            "Value can't be parsed into a date using the selected date format.")
         else .ok (sampleEngine.gnc_dmy2timespec_neutral 1 2 year)) ∧
      ((68 : Int) < 69 → year = 2000 + 68) ∧
      ((69 : Int) ≤ 68 → (68 : Int) ≤ 99 → year = 1900 + 68) ∧
      ((100 : Int) ≤ 68 → year = 68) ∧
      ((68 : Int) < 100 → 1969 ≤ year ∧ year ≤ 2068) ∧
      ((68 : Int) = 68 → year = 2068) ∧
      ((68 : Int) = 69 → year = 1969) :=
  parse_date_price_two_digit_year sampleEngine "1.2.68" 1
    { year := some ['6', '8'], month := some ['2'], day := some ['1'] } 1 2 68
    (by decide) (by rfl) (by rfl) (by rfl) (by rfl)

/-- C9: under the two formats without a year (indices 3 and 4), `parse_date_price`
throws "Value appears to contain a year while the selected format forbids this."
whenever the match holds a non-empty year, as for "01-02-2003"; under the
formats with a year (indices 0, 1, 2) it never throws that error. -/
theorem parse_date_price_year_forbidden (E : Engine) (date_str : String) (format : Fin 5) :
    (3 ≤ format.val → ∀ what : smatch,
      regex_search (date_regex_price format) date_str.toList = some what →
      what.length .YEAR ≠ 0 →
      parse_date_price E date_str format = .error (.invalid_argument
        "Value appears to contain a year while the selected format forbids this.")) ∧
    (format.val < 3 →
      parse_date_price E date_str format ≠ .error (.invalid_argument
        "Value appears to contain a year while the selected format forbids this.")) ∧
    parse_date_price E "01-02-2003" 3 = .error (.invalid_argument
      "Value appears to contain a year while the selected format forbids this.") ∧
    parse_date_price E "01-02-2003" 4 = .error (.invalid_argument
      "Value appears to contain a year while the selected format forbids this.") := by
  refine ⟨?_, ?_, ?_, ?_⟩
  · intro h3 what hmatch hyear
    unfold parse_date_price
    rw [hmatch]
    simp [h3, hyear]
  · intro hlt
    have h3 : ¬ (3 ≤ format.val) := by omega
    unfold parse_date_price
    cases hmatch : regex_search (date_regex_price format) date_str.toList with
    | none => simp
    | some what =>
      simp only [h3, hlt]
      cases hday : stoi (what.str .DAY) with
      | error e =>
        unfold stoi at hday
        simp only at hday
        split_ifs at hday <;> cases hday <;> simp [bind, Except.bind]
      | ok day =>
        cases hmonth : stoi (what.str .MONTH) with
        | error e =>
          unfold stoi at hmonth
          simp only at hmonth
          split_ifs at hmonth <;> cases hmonth <;> simp [bind, Except.bind]
        | ok month =>
          cases hyear : stoi (what.str .YEAR) with
          | error e =>
            unfold stoi at hyear
            simp only at hyear
            split_ifs at hyear <;> cases hyear <;> simp [bind, Except.bind]
          | ok year =>
            simp only [bind, Except.bind, pure, Except.pure]
            simp
            split_ifs <;> simp
  · have hm : regex_search (date_regex_price 3) "01-02-2003".toList =
        some { year := some ['2', '0', '0', '3'], month := some ['0', '2'],
               day := some ['0', '1'] } := by rfl
    unfold parse_date_price
    rw [hm]
    rfl
  · have hm : regex_search (date_regex_price 4) "01-02-2003".toList =
        some { year := some ['2', '0', '0', '3'], month := some ['0', '1'],
               day := some ['0', '2'] } := by rfl
    unfold parse_date_price
    rw [hm]
    rfl

/-- C10: for a text without any digit 0-9 (the empty text, blanks, currency
symbols) and every format index, `parse_amount_price` throws "Value doesn't
appear to contain a valid number.", whatever the numeric grammars of the engine
would answer: the result does not depend on them. -/
theorem parse_amount_price_no_digit (E : Engine) (str : String) (currency_format : Int)
    (h : ∀ c ∈ str.toList, ¬ ('0' ≤ c ∧ c ≤ '9')) :
    parse_amount_price E str currency_format =
      .error (.invalid_argument "Value doesn't appear to contain a valid number.") := by
  have hany : str.toList.any CharClass.digit.test = false := by
    rw [List.any_eq_false]
    intro c hc
    have := h c hc
    simpa [CharClass.test] using this
  unfold parse_amount_price
  rw [hany]
  rfl

/-- C10 at the text of one blank, one dollar sign and one blank, under the
decimal-period format. -/
theorem parse_amount_price_no_digit_witness :
    parse_amount_price sampleEngine " $ " 1 =
      .error (.invalid_argument "Value doesn't appear to contain a valid number.") :=
  parse_amount_price_no_digit sampleEngine " $ " 1 (by decide)

/-- C1: whenever `generate_list_of_splits` succeeds, the monetary values of the
splits it returns sum to exactly zero; so for the fixture row Buy 100 shares,
stock value 20000.00, cash 20009.95, capitalized fees 9.95. -/
theorem generate_list_of_splits_balanced (round : GncNumeric → GncNumeric)
    (m : StockAssistantModel) (h : (generate_list_of_splits round m).1 = true) :
    ((generate_list_of_splits round m).2.2.map SplitInfo.value).sum = 0 := by
  unfold generate_list_of_splits at h ⊢
  cases hk : m.txn_type with
  | none => simp [hk] at h
  | some kind =>
    simp only [hk] at h ⊢
    cases hs : implied_splits round kind m with
    | error msg => simp [hs] at h
    | ok splits =>
      simp only [hs] at h ⊢
      by_cases hsum : (splits.map SplitInfo.value).sum = 0
      · simp [hsum]
      · simp [hsum] at h

/-- C1 at the first fixture row: generation succeeds, with a stock leg of value
20009.95 and a cash leg of value -20009.95. -/
theorem generate_list_of_splits_balanced_witness :
    (generate_list_of_splits id sampleBuyModel).1 = true ∧
    (generate_list_of_splits id sampleBuyModel).2.2 =
      [{ account := 1, amount := 100, value := 2000995 / 100 },
       { account := 2, amount := -(2000995 / 100), value := -(2000995 / 100) }] ∧
    ((generate_list_of_splits id sampleBuyModel).2.2.map SplitInfo.value).sum = 0 := by
  have hs : implied_splits id sampleBuy sampleBuyModel = .ok
      [{ account := 1, amount := 100, value := 2000995 / 100 },
       { account := 2, amount := -(2000995 / 100), value := -(2000995 / 100) }] := by
    norm_num [implied_splits, money_leg, field_under_role, sampleBuyModel, sampleBuy, bind,
      Except.bind, pure, Except.pure]
    intro hne
    cases hne
  have h1 : (generate_list_of_splits id sampleBuyModel).1 = true := by
    unfold generate_list_of_splits
    simp only [show sampleBuyModel.txn_type = some sampleBuy from rfl, hs]
    norm_num
  refine ⟨h1, ?_, generate_list_of_splits_balanced id sampleBuyModel h1⟩
  unfold generate_list_of_splits
  simp only [show sampleBuyModel.txn_type = some sampleBuy from rfl, hs]
  norm_num

/-! ## Theorems: `parse_commodity_price_comm`, `set` and `reset` -/

/-- No error is stored for a column type after its errors were erased. -/
theorem errors_find_erase_self (p : GncPricePropType) (l : List (GncPricePropType × String)) :
    errors_find p (errors_erase p l) = none := by
  induction l with
  | nil => rfl
  | cons e rest ih =>
    obtain ⟨k, v⟩ := e
    by_cases h : k = p <;> simp [errors_erase, errors_find, h, ih]

/-- Erasing the errors of one column type keeps the error of every other. -/
theorem errors_find_erase_ne (p q : GncPricePropType) (h : q ≠ p)
    (l : List (GncPricePropType × String)) :
    errors_find q (errors_erase p l) = errors_find q l := by
  have hpq : ¬ (p = q) := fun h2 => h h2.symm
  induction l with
  | nil => rfl
  | cons e rest ih =>
    obtain ⟨k, v⟩ := e
    unfold errors_erase
    split_ifs with hk
    · rw [ih]
      have hkq : ¬ (k = q) := by rw [hk]; exact hpq
      simp [errors_find, hkq]
    · simp [errors_find, ih]

/-- Emplacing an error for one column type keeps the error of every other. -/
theorem errors_find_emplace_ne (p q : GncPricePropType) (h : q ≠ p) (v : String)
    (l : List (GncPricePropType × String)) :
    errors_find q (errors_emplace p v l) = errors_find q l := by
  have hpq : ¬ (p = q) := fun h2 => h h2.symm
  induction l with
  | nil => simp [errors_emplace, errors_find, hpq]
  | cons e rest ih =>
    obtain ⟨k, w⟩ := e
    unfold errors_emplace
    split_ifs with h1 h2
    · rfl
    · simp [errors_find, hpq]
    · by_cases hq : k = q <;> simp [errors_find, hq, ih]

/-- Emplacing an error for a column type that has none stores it. -/
theorem errors_find_emplace_absent (p : GncPricePropType) (v : String)
    (l : List (GncPricePropType × String)) (h : errors_find p l = none) :
    errors_find p (errors_emplace p v l) = some v := by
  induction l with
  | nil => simp [errors_emplace, errors_find]
  | cons e rest ih =>
    obtain ⟨k, w⟩ := e
    by_cases hk : k = p
    · simp [errors_find, hk] at h
    · simp only [errors_find, hk, if_false] at h
      unfold errors_emplace
      split_ifs with h2
      · simp [errors_find]
      · simp [errors_find, hk, ih h]

/-- The loop over the namespaces finds the first commodity among the namespaces
that do not collate equal to the currency namespace. -/
theorem parse_commodity_other_namespaces_eq (T : CommodityTable) (comm_str : String)
    (l : List String) :
    parse_commodity_other_namespaces T comm_str l =
      (l.filter (fun ns => decide (T.g_utf8_collate ns GNC_COMMODITY_NS_CURRENCY ≠ 0))).findSome?
        (fun ns => T.gnc_commodity_table_lookup ns comm_str) := by
  induction l with
  | nil => rfl
  | cons ns rest ih =>
    unfold parse_commodity_other_namespaces
    by_cases hc : T.g_utf8_collate ns GNC_COMMODITY_NS_CURRENCY = 0
    · simp [hc, ih]
    · cases hl : T.gnc_commodity_table_lookup ns comm_str <;>
        simp [hc, ih, hl, List.findSome?]

/-- No date format matches the empty text. -/
theorem parse_date_price_empty (E : Engine) (format : Fin 5) :
    parse_date_price E "" format = .error (.invalid_argument
      "Value can't be parsed into a date using the selected date format.") := by
  have h : regex_search (date_regex_price format) "".toList = none := by
    fin_cases format <;> rfl
  unfold parse_date_price
  rw [h]

/-- The `try` block of `set` erases the errors of its column type and touches no
other entry of `m_errors`. -/
theorem set_try_block_errors (E : Engine) (T : CommodityTable) (self : GncImportPrice)
    (p : GncPricePropType) (value : String) :
    (set_try_block E T self p value).2.m_errors = errors_erase p self.m_errors := by
  cases p
  · rfl
  · simp only [set_try_block]
    cases parse_date_price E value self.m_date_format <;> rfl
  · simp only [set_try_block]
    cases parse_amount_price E value self.m_currency_format <;> rfl
  · simp only [set_try_block]
    cases h : parse_commodity_price_comm T value with
    | error e => rfl
    | ok c => cases c <;> rfl
  · simp only [set_try_block]
    cases h : parse_commodity_price_comm T value with
    | error e => rfl
    | ok c =>
      cases c with
      | none => rfl
      | some comm => by_cases hc : E.gnc_commodity_is_currency comm = true <;> simp [hc]

/-- The `try` block of `set` touches no field of another column type. -/
theorem set_try_block_fields (E : Engine) (T : CommodityTable) (self : GncImportPrice)
    (p : GncPricePropType) (value : String) :
    (p ≠ .DATE → (set_try_block E T self p value).2.m_date = self.m_date) ∧
    (p ≠ .AMOUNT → (set_try_block E T self p value).2.m_amount = self.m_amount) ∧
    (p ≠ .FROM_COMMODITY →
      (set_try_block E T self p value).2.m_from_commodity = self.m_from_commodity) ∧
    (p ≠ .TO_CURRENCY →
      (set_try_block E T self p value).2.m_to_currency = self.m_to_currency) := by
  cases p
  · exact ⟨fun _ => rfl, fun _ => rfl, fun _ => rfl, fun _ => rfl⟩
  · simp only [set_try_block]
    cases parse_date_price E value self.m_date_format <;>
      exact ⟨fun h => absurd rfl h, fun _ => rfl, fun _ => rfl, fun _ => rfl⟩
  · simp only [set_try_block]
    cases parse_amount_price E value self.m_currency_format <;>
      exact ⟨fun _ => rfl, fun h => absurd rfl h, fun _ => rfl, fun _ => rfl⟩
  · simp only [set_try_block]
    cases h : parse_commodity_price_comm T value with
    | error e => exact ⟨fun _ => rfl, fun _ => rfl, fun h => absurd rfl h, fun _ => rfl⟩
    | ok c =>
      cases c <;> exact ⟨fun _ => rfl, fun _ => rfl, fun h => absurd rfl h, fun _ => rfl⟩
  · simp only [set_try_block]
    cases h : parse_commodity_price_comm T value with
    | error e => exact ⟨fun _ => rfl, fun _ => rfl, fun _ => rfl, fun h => absurd rfl h⟩
    | ok c =>
      cases c with
      | none => exact ⟨fun _ => rfl, fun _ => rfl, fun _ => rfl, fun h => absurd rfl h⟩
      | some comm =>
        by_cases hc : E.gnc_commodity_is_currency comm = true <;> simp [hc]

/-- The method `set` in terms of its `try` block: on an exception `e` of the
block it throws the labelled message and emplaces it; otherwise it returns with
the member variables of the block. -/
theorem set_eq_of_try_block (E : Engine) (T : CommodityTable) (self : GncImportPrice)
    (p : GncPricePropType) (value : String) :
    GncImportPrice.set E T self p value =
      match (set_try_block E T self p value).1 with
      | .ok _ => (.ok (), (set_try_block E T self p value).2)
      | .error e =>
        (.error (.invalid_argument
            (gnc_price_col_type_strs p ++ " could not be understood.\n" ++ e.what)),
          { (set_try_block E T self p value).2 with
            m_errors := errors_emplace p
              (gnc_price_col_type_strs p ++ " could not be understood.\n" ++ e.what)
              (set_try_block E T self p value).2.m_errors }) := by
  unfold GncImportPrice.set
  rcases h : set_try_block E T self p value with ⟨r, st⟩
  cases r <;> rfl

/-- The amount parser throws on the empty text. -/
theorem parse_amount_price_empty (E : Engine) (currency_format : Int) :
    parse_amount_price E "" currency_format =
      .error (.invalid_argument "Value doesn't appear to contain a valid number.") := by
  rfl

/-- The commodity parser returns no commodity for the empty text. -/
theorem parse_commodity_price_comm_empty (T : CommodityTable) :
    parse_commodity_price_comm T "" = .ok none := by
  simp [parse_commodity_price_comm]

/-- For a non-empty text that does not begin with "::", a commodity found by the
unique-name lookup is returned, whatever the namespaces hold. -/
theorem parse_commodity_unique_name_first (T : CommodityTable) (comm_str : String)
    (c : gnc_commodity) (hne : comm_str ≠ "") (hfind : string_find comm_str "::" ≠ some 0)
    (hunique : T.gnc_commodity_table_lookup_unique comm_str = some c) :
    parse_commodity_price_comm T comm_str = .ok (some c) := by
  unfold parse_commodity_price_comm
  simp [hne, hfind, hunique]

/-- C11: the text "::SPY" is the unique name of a commodity of the sample table
(namespace with the empty name, mnemonic SPY), yet `parse_commodity_price_comm`
does not return it: `comm_str.find ("::")` is 0, which reads as false, so the
unique-name lookup is skipped and the search ends with an exception. -/
theorem parse_commodity_unique_name_skipped :
    sampleTable.gnc_commodity_table_lookup_unique "::SPY" = some 502 ∧
    string_find "::SPY" "::" = some 0 ∧
    parse_commodity_price_comm sampleTable "::SPY" =
      .error (.invalid_argument "Value can't be parsed into a valid commodity.") := by
  refine ⟨by rfl, by rfl, by rfl⟩

/-- C12: for a non-empty text that is no unique name, `parse_commodity_price_comm`
returns the commodity of the currency namespace with that mnemonic if there is
one; else the commodity found in the first namespace, in the order of the
table's list and skipping what collates equal to the currency namespace, that
holds the mnemonic; and it throws if and only if neither holds it. -/
theorem parse_commodity_search_order (T : CommodityTable) (comm_str : String)
    (hne : comm_str ≠ "") (hunique : T.gnc_commodity_table_lookup_unique comm_str = none) :
    (∀ c, T.gnc_commodity_table_lookup GNC_COMMODITY_NS_CURRENCY comm_str = some c →
      parse_commodity_price_comm T comm_str = .ok (some c)) ∧
    (T.gnc_commodity_table_lookup GNC_COMMODITY_NS_CURRENCY comm_str = none →
      ∀ c, (T.gnc_commodity_table_get_namespaces.filter
          (fun ns => decide (T.g_utf8_collate ns GNC_COMMODITY_NS_CURRENCY ≠ 0))).findSome?
          (fun ns => T.gnc_commodity_table_lookup ns comm_str) = some c →
        parse_commodity_price_comm T comm_str = .ok (some c)) ∧
    (parse_commodity_price_comm T comm_str =
        .error (.invalid_argument "Value can't be parsed into a valid commodity.") ↔
      T.gnc_commodity_table_lookup GNC_COMMODITY_NS_CURRENCY comm_str = none ∧
      ∀ ns ∈ T.gnc_commodity_table_get_namespaces,
        T.g_utf8_collate ns GNC_COMMODITY_NS_CURRENCY ≠ 0 →
        T.gnc_commodity_table_lookup ns comm_str = none) ∧
    (∀ e, parse_commodity_price_comm T comm_str = .error e →
      e = .invalid_argument "Value can't be parsed into a valid commodity.") := by
  have hstep : parse_commodity_price_comm T comm_str =
      match T.gnc_commodity_table_lookup GNC_COMMODITY_NS_CURRENCY comm_str with
      | some c => .ok (some c)
      | none =>
        match (T.gnc_commodity_table_get_namespaces.filter
          (fun ns => decide (T.g_utf8_collate ns GNC_COMMODITY_NS_CURRENCY ≠ 0))).findSome?
          (fun ns => T.gnc_commodity_table_lookup ns comm_str) with
        | some c => .ok (some c)
        | none => .error (.invalid_argument "Value can't be parsed into a valid commodity.") := by
    unfold parse_commodity_price_comm
    rw [parse_commodity_other_namespaces_eq]
    simp only [hne, hunique, if_false, ite_self]
    cases T.gnc_commodity_table_lookup GNC_COMMODITY_NS_CURRENCY comm_str with
    | some c => rfl
    | none =>
      simp only []
      cases (T.gnc_commodity_table_get_namespaces.filter
          (fun ns => decide (T.g_utf8_collate ns GNC_COMMODITY_NS_CURRENCY ≠ 0))).findSome?
          (fun ns => T.gnc_commodity_table_lookup ns comm_str) <;> rfl
  rw [hstep]
  refine ⟨?_, ?_, ?_, ?_⟩
  · intro c hc; simp only [hc]
  · intro hc c hf; simp only [hc, hf]
  · cases hc : T.gnc_commodity_table_lookup GNC_COMMODITY_NS_CURRENCY comm_str with
    | some c => simp
    | none =>
      cases hf : (T.gnc_commodity_table_get_namespaces.filter
          (fun ns => decide (T.g_utf8_collate ns GNC_COMMODITY_NS_CURRENCY ≠ 0))).findSome?
          (fun ns => T.gnc_commodity_table_lookup ns comm_str) with
      | none =>
        simp only [true_and, true_iff]
        intro ns hns hcol
        rw [List.findSome?_eq_none_iff] at hf
        exact hf ns (by simp [List.mem_filter, hns, hcol])
      | some c =>
        refine ⟨fun h => (by cases h), fun hall => ?_⟩
        obtain ⟨ns, hns, hl⟩ := List.exists_of_findSome?_eq_some hf
        rw [List.mem_filter] at hns
        have := hall.2 ns hns.1 (by simpa using hns.2)
        rw [this] at hl
        cases hl
  · intro e he
    cases hc : T.gnc_commodity_table_lookup GNC_COMMODITY_NS_CURRENCY comm_str with
    | some c => simp only [hc] at he; cases he
    | none =>
      simp only [hc] at he
      cases hf : (T.gnc_commodity_table_get_namespaces.filter
          (fun ns => decide (T.g_utf8_collate ns GNC_COMMODITY_NS_CURRENCY ≠ 0))).findSome?
          (fun ns => T.gnc_commodity_table_lookup ns comm_str) with
      | none => simp only [hf] at he; cases he; rfl
      | some c => simp only [hf] at he; cases he

/-- C12 at the sample table: "AAPL" is found in the first other namespace that
holds it, and "USD", held by the currency namespace and by a fund namespace, is
resolved to the currency. -/
theorem parse_commodity_search_order_witness :
    parse_commodity_price_comm sampleTable "AAPL" = .ok (some 500) ∧
    parse_commodity_price_comm sampleTable "USD" = .ok (some 1) :=
  ⟨(parse_commodity_search_order sampleTable "AAPL" (by decide) (by rfl)).2.1 (by rfl) 500
      (by rfl),
   (parse_commodity_search_order sampleTable "USD" (by decide) (by rfl)).1 1 (by rfl)⟩

/-- C13, as stated, fails: the text of one blank is whitespace only, and
`parse_commodity_price_comm` throws on it with the sample table. -/
theorem parse_commodity_blank_text_fails :
    (∀ c ∈ " ".toList, c.isWhitespace = true) ∧
    parse_commodity_price_comm sampleTable " " =
      .error (.invalid_argument "Value can't be parsed into a valid commodity.") :=
  ⟨by decide, by rfl⟩

/-- C13, amended: for the empty text `parse_commodity_price_comm` returns no
commodity and does not throw, whatever the commodity table; the text is not
trimmed, and any other text, whitespace included, either resolves to a commodity
or throws. -/
theorem parse_commodity_empty_text (T : CommodityTable) :
    parse_commodity_price_comm T "" = .ok none ∧
    (∀ comm_str : String, comm_str ≠ "" → parse_commodity_price_comm T comm_str ≠ .ok none) := by
  refine ⟨by simp [parse_commodity_price_comm], ?_⟩
  intro comm_str hne
  unfold parse_commodity_price_comm
  simp only [hne, if_false]
  split <;> simp

/-- C14, as stated, fails for TO_CURRENCY: "AAPL" parses to a commodity of the
sample table, yet `set (TO_CURRENCY, "AAPL")` throws and leaves the field unset,
because that commodity is not a currency. -/
theorem set_to_currency_rejects_parsed_commodity :
    parse_commodity_price_comm sampleTable "AAPL" = .ok (some 500) ∧
    (GncImportPrice.set sampleEngine sampleTable sampleRow .TO_CURRENCY "AAPL").1 =
      .error (.invalid_argument ("Currency To could not be understood.\n" ++
        "Value parsed into an invalid currency for a currency column type.")) ∧
    (GncImportPrice.set sampleEngine sampleTable sampleRow .TO_CURRENCY "AAPL").2.m_to_currency
      = none :=
  ⟨by rfl, by rfl, by rfl⟩

/-- C14, amended: for DATE, AMOUNT and FROM_COMMODITY and a text whose parse
succeeds with a value, and for TO_CURRENCY and a text whose parse succeeds with
a commodity that is a currency, `set` does not throw, stores the parsed value in
the field of that column type whatever it held before, and leaves no error
stored for that column type. -/
theorem set_stores_parsed_value (E : Engine) (T : CommodityTable) (self : GncImportPrice)
    (value : String) :
    (∀ date, parse_date_price E value self.m_date_format = .ok date →
      (GncImportPrice.set E T self .DATE value).1 = .ok () ∧
      (GncImportPrice.set E T self .DATE value).2.m_date = some date ∧
      errors_find .DATE (GncImportPrice.set E T self .DATE value).2.m_errors = none) ∧
    (∀ amount, parse_amount_price E value self.m_currency_format = .ok amount →
      (GncImportPrice.set E T self .AMOUNT value).1 = .ok () ∧
      (GncImportPrice.set E T self .AMOUNT value).2.m_amount = some amount ∧
      errors_find .AMOUNT (GncImportPrice.set E T self .AMOUNT value).2.m_errors = none) ∧
    (∀ comm, parse_commodity_price_comm T value = .ok (some comm) →
      (GncImportPrice.set E T self .FROM_COMMODITY value).1 = .ok () ∧
      (GncImportPrice.set E T self .FROM_COMMODITY value).2.m_from_commodity = some comm ∧
      errors_find .FROM_COMMODITY
        (GncImportPrice.set E T self .FROM_COMMODITY value).2.m_errors = none) ∧
    (∀ comm, parse_commodity_price_comm T value = .ok (some comm) →
      E.gnc_commodity_is_currency comm = true →
      (GncImportPrice.set E T self .TO_CURRENCY value).1 = .ok () ∧
      (GncImportPrice.set E T self .TO_CURRENCY value).2.m_to_currency = some comm ∧
      errors_find .TO_CURRENCY
        (GncImportPrice.set E T self .TO_CURRENCY value).2.m_errors = none) := by
  refine ⟨?_, ?_, ?_, ?_⟩
  · intro date h
    simp [GncImportPrice.set, set_try_block, h, errors_find_erase_self]
  · intro amount h
    simp [GncImportPrice.set, set_try_block, h, errors_find_erase_self]
  · intro comm h
    simp [GncImportPrice.set, set_try_block, h, errors_find_erase_self]
  · intro comm h hcur
    simp [GncImportPrice.set, set_try_block, h, hcur, errors_find_erase_self]

/-- C14, amended, at the sample row with old errors: each column type is set
from a text that parses, and its old error is gone. -/
theorem set_stores_parsed_value_witness :
    ((GncImportPrice.set sampleEngineDecimal sampleTable sampleRowWithErrors .DATE "1.2.68").1
        = .ok () ∧
      (GncImportPrice.set sampleEngineDecimal sampleTable sampleRowWithErrors .DATE
        "1.2.68").2.m_date = some 20680201 ∧
      errors_find .DATE (GncImportPrice.set sampleEngineDecimal sampleTable sampleRowWithErrors
        .DATE "1.2.68").2.m_errors = none) ∧
    ((GncImportPrice.set sampleEngineDecimal sampleTable sampleRowWithErrors .AMOUNT "12.50").1
        = .ok () ∧
      (GncImportPrice.set sampleEngineDecimal sampleTable sampleRowWithErrors .AMOUNT
        "12.50").2.m_amount = some (25 / 2) ∧
      errors_find .AMOUNT (GncImportPrice.set sampleEngineDecimal sampleTable
        sampleRowWithErrors .AMOUNT "12.50").2.m_errors = none) ∧
    ((GncImportPrice.set sampleEngineDecimal sampleTable sampleRowWithErrors .TO_CURRENCY
        "EUR").1 = .ok () ∧
      (GncImportPrice.set sampleEngineDecimal sampleTable sampleRowWithErrors .TO_CURRENCY
        "EUR").2.m_to_currency = some 2 ∧
      errors_find .TO_CURRENCY (GncImportPrice.set sampleEngineDecimal sampleTable
        sampleRowWithErrors .TO_CURRENCY "EUR").2.m_errors = none) :=
  ⟨(set_stores_parsed_value sampleEngineDecimal sampleTable sampleRowWithErrors "1.2.68").1
      20680201 (by rfl),
   (set_stores_parsed_value sampleEngineDecimal sampleTable sampleRowWithErrors "12.50").2.1
      (25 / 2) (by rfl),
   (set_stores_parsed_value sampleEngineDecimal sampleTable sampleRowWithErrors "EUR").2.2.2
      2 (by rfl) (by rfl)⟩

/-- C15: when the parse of the text throws an exception with message `m`, `set`
throws `std::invalid_argument` with the message made of the display label of the
column type ("Date", "Amount", "Commodity From", "Currency To"), the text
" could not be understood." with a line break, and `m`; and exactly that message
is the error stored for the column type afterwards, whatever was stored before.
For TO_CURRENCY the same holds for the exception of the currency check. -/
theorem set_stores_error (E : Engine) (T : CommodityTable) (self : GncImportPrice)
    (value : String) (e : Exn) :
    (parse_date_price E value self.m_date_format = .error e →
      (GncImportPrice.set E T self .DATE value).1 =
        .error (.invalid_argument ("Date" ++ " could not be understood.\n" ++ e.what)) ∧
      errors_find .DATE (GncImportPrice.set E T self .DATE value).2.m_errors =
        some ("Date" ++ " could not be understood.\n" ++ e.what)) ∧
    (parse_amount_price E value self.m_currency_format = .error e →
      (GncImportPrice.set E T self .AMOUNT value).1 =
        .error (.invalid_argument ("Amount" ++ " could not be understood.\n" ++ e.what)) ∧
      errors_find .AMOUNT (GncImportPrice.set E T self .AMOUNT value).2.m_errors =
        some ("Amount" ++ " could not be understood.\n" ++ e.what)) ∧
    (parse_commodity_price_comm T value = .error e →
      (GncImportPrice.set E T self .FROM_COMMODITY value).1 =
        .error (.invalid_argument
          ("Commodity From" ++ " could not be understood.\n" ++ e.what)) ∧
      errors_find .FROM_COMMODITY
          (GncImportPrice.set E T self .FROM_COMMODITY value).2.m_errors =
        some ("Commodity From" ++ " could not be understood.\n" ++ e.what)) ∧
    (parse_commodity_price_comm T value = .error e →
      (GncImportPrice.set E T self .TO_CURRENCY value).1 =
        .error (.invalid_argument ("Currency To" ++ " could not be understood.\n" ++ e.what)) ∧
      errors_find .TO_CURRENCY (GncImportPrice.set E T self .TO_CURRENCY value).2.m_errors =
        some ("Currency To" ++ " could not be understood.\n" ++ e.what)) ∧
    (∀ comm, parse_commodity_price_comm T value = .ok (some comm) →
      E.gnc_commodity_is_currency comm = false →
      (GncImportPrice.set E T self .TO_CURRENCY value).1 =
        .error (.invalid_argument ("Currency To" ++ " could not be understood.\n" ++
          "Value parsed into an invalid currency for a currency column type.")) ∧
      errors_find .TO_CURRENCY (GncImportPrice.set E T self .TO_CURRENCY value).2.m_errors =
        some ("Currency To" ++ " could not be understood.\n" ++
          "Value parsed into an invalid currency for a currency column type.")) := by
  refine ⟨?_, ?_, ?_, ?_, ?_⟩
  · intro h
    simp only [GncImportPrice.set, set_try_block, h, gnc_price_col_type_strs]
    exact ⟨trivial, errors_find_emplace_absent _ _ _ (errors_find_erase_self _ _)⟩
  · intro h
    simp only [GncImportPrice.set, set_try_block, h, gnc_price_col_type_strs]
    exact ⟨trivial, errors_find_emplace_absent _ _ _ (errors_find_erase_self _ _)⟩
  · intro h
    simp only [GncImportPrice.set, set_try_block, h, gnc_price_col_type_strs]
    exact ⟨trivial, errors_find_emplace_absent _ _ _ (errors_find_erase_self _ _)⟩
  · intro h
    simp only [GncImportPrice.set, set_try_block, h, gnc_price_col_type_strs]
    exact ⟨trivial, errors_find_emplace_absent _ _ _ (errors_find_erase_self _ _)⟩
  · intro comm h hcur
    simp only [GncImportPrice.set, set_try_block, h, hcur, gnc_price_col_type_strs]
    exact ⟨rfl, errors_find_emplace_absent _ _ _ (errors_find_erase_self _ _)⟩

/-- C15 at the sample row with old errors: a date text without digits and an
amount text without digits. -/
theorem set_stores_error_witness :
    ((GncImportPrice.set sampleEngine sampleTable sampleRowWithErrors .DATE "soon").1 =
        .error (.invalid_argument ("Date" ++ " could not be understood.\n" ++
          "Value can't be parsed into a date using the selected date format.")) ∧
      errors_find .DATE
          (GncImportPrice.set sampleEngine sampleTable sampleRowWithErrors .DATE "soon").2.m_errors =
        some ("Date" ++ " could not be understood.\n" ++
          "Value can't be parsed into a date using the selected date format.")) ∧
    ((GncImportPrice.set sampleEngine sampleTable sampleRowWithErrors .AMOUNT " $ ").1 =
        .error (.invalid_argument ("Amount" ++ " could not be understood.\n" ++
          "Value doesn't appear to contain a valid number.")) ∧
      errors_find .AMOUNT
          (GncImportPrice.set sampleEngine sampleTable sampleRowWithErrors .AMOUNT " $ ").2.m_errors =
        some ("Amount" ++ " could not be understood.\n" ++
          "Value doesn't appear to contain a valid number.")) :=
  ⟨(set_stores_error sampleEngine sampleTable sampleRowWithErrors "soon" (.invalid_argument
      "Value can't be parsed into a date using the selected date format.")).1 (by rfl),
   (set_stores_error sampleEngine sampleTable sampleRowWithErrors " $ " (.invalid_argument
      "Value doesn't appear to contain a valid number.")).2.1 (by rfl)⟩

/-- C16: `set (p, text)`, whether it throws or not, leaves the stored error of
every other column type `q` and the field of every other column type as they
were. -/
theorem set_frame (E : Engine) (T : CommodityTable) (self : GncImportPrice)
    (p : GncPricePropType) (value : String) :
    (∀ q, q ≠ p → errors_find q (GncImportPrice.set E T self p value).2.m_errors =
      errors_find q self.m_errors) ∧
    (p ≠ .DATE → (GncImportPrice.set E T self p value).2.m_date = self.m_date) ∧
    (p ≠ .AMOUNT → (GncImportPrice.set E T self p value).2.m_amount = self.m_amount) ∧
    (p ≠ .FROM_COMMODITY →
      (GncImportPrice.set E T self p value).2.m_from_commodity = self.m_from_commodity) ∧
    (p ≠ .TO_CURRENCY →
      (GncImportPrice.set E T self p value).2.m_to_currency = self.m_to_currency) := by
  have herr := set_try_block_errors E T self p value
  obtain ⟨hd, ha, hf, ht⟩ := set_try_block_fields E T self p value
  rw [set_eq_of_try_block]
  cases hr : (set_try_block E T self p value).1 with
  | ok u =>
    refine ⟨fun q hq => ?_, hd, ha, hf, ht⟩
    simp only [herr]
    exact errors_find_erase_ne p q hq _
  | error e =>
    refine ⟨fun q hq => ?_, hd, ha, hf, ht⟩
    simp only [herr]
    rw [errors_find_emplace_ne p q hq, errors_find_erase_ne p q hq]

/-- C17: for DATE, AMOUNT, FROM_COMMODITY and TO_CURRENCY, `reset` does not throw,
and afterwards the field of the column type is unset and no error is stored for
it; this also holds for DATE and AMOUNT, where `set` with the empty text throws. -/
theorem reset_clears (E : Engine) (T : CommodityTable) (self : GncImportPrice) :
    ((GncImportPrice.reset E T self .DATE).1 = .ok () ∧
      (GncImportPrice.reset E T self .DATE).2.m_date = none ∧
      errors_find .DATE (GncImportPrice.reset E T self .DATE).2.m_errors = none) ∧
    ((GncImportPrice.reset E T self .AMOUNT).1 = .ok () ∧
      (GncImportPrice.reset E T self .AMOUNT).2.m_amount = none ∧
      errors_find .AMOUNT (GncImportPrice.reset E T self .AMOUNT).2.m_errors = none) ∧
    ((GncImportPrice.reset E T self .FROM_COMMODITY).1 = .ok () ∧
      (GncImportPrice.reset E T self .FROM_COMMODITY).2.m_from_commodity = none ∧
      errors_find .FROM_COMMODITY
        (GncImportPrice.reset E T self .FROM_COMMODITY).2.m_errors = none) ∧
    ((GncImportPrice.reset E T self .TO_CURRENCY).1 = .ok () ∧
      (GncImportPrice.reset E T self .TO_CURRENCY).2.m_to_currency = none ∧
      errors_find .TO_CURRENCY (GncImportPrice.reset E T self .TO_CURRENCY).2.m_errors = none) ∧
    (∃ e, (GncImportPrice.set E T self .DATE "").1 = .error e) ∧
    (∃ e, (GncImportPrice.set E T self .AMOUNT "").1 = .error e) := by
  refine ⟨?_, ?_, ?_, ?_, ?_, ?_⟩
  · simp [GncImportPrice.reset, GncImportPrice.set, set_try_block, parse_date_price_empty,
      errors_find_erase_self]
  · simp [GncImportPrice.reset, GncImportPrice.set, set_try_block, parse_amount_price_empty,
      errors_find_erase_self]
  · simp [GncImportPrice.reset, GncImportPrice.set, set_try_block,
      parse_commodity_price_comm_empty, errors_find_erase_self]
  · simp [GncImportPrice.reset, GncImportPrice.set, set_try_block,
      parse_commodity_price_comm_empty, errors_find_erase_self]
  · simp [GncImportPrice.set, set_try_block, parse_date_price_empty]
  · simp [GncImportPrice.set, set_try_block, parse_amount_price_empty]

/-! ## Theorems: the stock transaction assistant -/

/-- A bind of `Except` that succeeds has a first step that succeeds. -/
theorem except_bind_ok_inv {ε α β : Type} (x : Except ε α) (f : α → Except ε β) (b : β)
    (h : (x >>= f) = .ok b) : ∃ a, x = .ok a ∧ f a = .ok b := by
  cases x with
  | error e => simp [bind, Except.bind] at h
  | ok a => exact ⟨a, rfl, h⟩

/-- A split of a money leg is posted to the account of the leg, and there is one
only when the role is not disabled and the field is set. -/
theorem money_leg_mem (round : GncNumeric → GncNumeric) (name : String) (status : FieldStatus)
    (side : Int) (field : Option GncNumeric) (account : Option Account) (l : List SplitInfo)
    (s : SplitInfo) (h : money_leg round name status side field account = .ok l) (hs : s ∈ l) :
    account = some s.account ∧ status ≠ .disabled ∧ field ≠ none := by
  unfold money_leg field_under_role at h
  cases status <;> cases field <;> cases account <;>
    simp [bind, Except.bind, pure, Except.pure] at h <;>
    (subst h; simp at hs)
  all_goals subst hs
  all_goals simp

/-- A money leg whose field takes no part under its role has no split. -/
theorem money_leg_of_inactive (round : GncNumeric → GncNumeric) (name : String)
    (status : FieldStatus) (side : Int) (field : Option GncNumeric) (account : Option Account)
    (l : List SplitInfo) (hrole : field_under_role name status field = .ok none)
    (h : money_leg round name status side field account = .ok l) : l = [] := by
  unfold money_leg at h
  rw [hrole] at h
  simp [bind, Except.bind, pure, Except.pure] at h
  exact h

/-- The legs behind a successful `implied_splits`. -/
theorem implied_splits_ok_inv (round : GncNumeric → GncNumeric) (kind : TransactionTypeKind)
    (m : StockAssistantModel) (splits : List SplitInfo)
    (h : implied_splits round kind m = .ok splits) :
    ∃ (sa sv fees : Option GncNumeric) (cash_leg fees_leg dividend_leg capgains_leg : List SplitInfo),
      field_under_role "stock amount" kind.stock_amount m.stock_amount = .ok sa ∧
      field_under_role "stock value" kind.stock_value m.stock_value = .ok sv ∧
      field_under_role "fees" kind.fees_value m.fees_value = .ok fees ∧
      money_leg round "cash" kind.cash_value kind.cash_side m.cash_value m.cash_account
        = .ok cash_leg ∧
      ((fees.isSome && m.fees_capitalize) = true → fees_leg = []) ∧
      ((fees.isSome && m.fees_capitalize) = false →
        money_leg round "fees" kind.fees_value kind.fees_side m.fees_value m.fees_account
          = .ok fees_leg) ∧
      money_leg round "dividend" kind.dividend_value kind.dividend_side m.dividend_value
        m.dividend_account = .ok dividend_leg ∧
      money_leg round "capital gains" kind.capgains_value kind.capgains_side m.capgains_value
        m.capgains_account = .ok capgains_leg ∧
      splits =
        (if (sa.isSome || sv.isSome || (fees.isSome && m.fees_capitalize)) = true then
          [{ account := m.stock_account
             amount := sa.getD 0
             value := kind.stock_side * round (sv.getD 0) +
               (if (fees.isSome && m.fees_capitalize) = true then
                 kind.fees_side * round (fees.getD 0) else 0) }]
         else []) ++ cash_leg ++ fees_leg ++ dividend_leg ++ capgains_leg := by
  unfold implied_splits at h
  obtain ⟨sa, h1, h⟩ := except_bind_ok_inv _ _ _ h
  obtain ⟨sv, h2, h⟩ := except_bind_ok_inv _ _ _ h
  obtain ⟨fees, h3, h⟩ := except_bind_ok_inv _ _ _ h
  dsimp only at h
  by_cases hforbid :
      (fees.isSome && m.fees_capitalize && kind.fees_capitalize == FieldStatus.disabled) = true
  · rw [if_pos hforbid] at h
    cases h
  · rw [if_neg hforbid] at h
    obtain ⟨cash_leg, h4, h⟩ := except_bind_ok_inv _ _ _ h
    by_cases hcap : (fees.isSome && m.fees_capitalize) = true
    · rw [if_pos hcap] at h
      obtain ⟨fees_leg, h5, h⟩ := except_bind_ok_inv _ _ _ h
      obtain ⟨dividend_leg, h6, h⟩ := except_bind_ok_inv _ _ _ h
      obtain ⟨capgains_leg, h7, h⟩ := except_bind_ok_inv _ _ _ h
      cases h5
      cases h
      exact ⟨sa, sv, fees, cash_leg, [], dividend_leg, capgains_leg, h1, h2, h3, h4,
        fun _ => rfl, fun hc => (by rw [hcap] at hc; cases hc), h6, h7, rfl⟩
    · rw [if_neg hcap] at h
      obtain ⟨fees_leg, h5, h⟩ := except_bind_ok_inv _ _ _ h
      obtain ⟨dividend_leg, h6, h⟩ := except_bind_ok_inv _ _ _ h
      obtain ⟨capgains_leg, h7, h⟩ := except_bind_ok_inv _ _ _ h
      cases h
      exact ⟨sa, sv, fees, cash_leg, fees_leg, dividend_leg, capgains_leg, h1, h2, h3, h4,
        fun hc => absurd hc hcap, fun _ => h5, h6, h7, rfl⟩

/-- C18: on a model whose transaction date is set and whose type table was never
built, the first call of `maybe_reset_txn_types` returns true, a repeated call
with the date unchanged returns false, and after the transaction date is changed
to a different date the next call returns true again. -/
theorem maybe_reset_txn_types_once_per_date (applicable_types : Int → List TransactionTypeKind)
    (b1 b2 b3 : GncNumeric) (m : StockAssistantModel) (d1 d2 : time64)
    (hfirst : m.txn_types = none) (hdate : m.transaction_date = some d1) (hchange : d2 ≠ d1) :
    (maybe_reset_txn_types applicable_types b1 m).1 = true ∧
    (maybe_reset_txn_types applicable_types b2
      (maybe_reset_txn_types applicable_types b1 m).2).1 = false ∧
    (maybe_reset_txn_types applicable_types b3
      { (maybe_reset_txn_types applicable_types b2
          (maybe_reset_txn_types applicable_types b1 m).2).2 with
        transaction_date := some d2 }).1 = true := by
  have hne : ¬ (d1 = d2) := fun h => hchange h.symm
  simp [maybe_reset_txn_types, hfirst, hdate, hne]

/-- C18 at the model of `test_failure_modes`: 1 January 2022, then 1 February
2022. -/
theorem maybe_reset_txn_types_once_per_date_witness :
    (maybe_reset_txn_types sampleTypes 0 sampleFreshModel).1 = true ∧
    (maybe_reset_txn_types sampleTypes 0
      (maybe_reset_txn_types sampleTypes 0 sampleFreshModel).2).1 = false ∧
    (maybe_reset_txn_types sampleTypes 0
      { (maybe_reset_txn_types sampleTypes 0
          (maybe_reset_txn_types sampleTypes 0 sampleFreshModel).2).2 with
        transaction_date := some 1643673600 }).1 = true :=
  maybe_reset_txn_types_once_per_date sampleTypes 0 0 0 sampleFreshModel 1640995200 1643673600
    rfl rfl (by decide)

/-- C19: on a model with no transaction type selected, `generate_list_of_splits`
returns success = false, and `create_transaction` called afterwards returns
success = false with no transaction, hands nothing to the ledger and leaves the
ledger as it was. -/
theorem generate_and_create_fail_without_type {L : Type} (round : GncNumeric → GncNumeric)
    (O : LedgerOps L) (m : StockAssistantModel) (ledger : L) (hnone : m.txn_type = none) :
    (generate_list_of_splits round m).1 = false ∧
    (create_transaction O (generate_list_of_splits_state round m) ledger).success = false ∧
    (create_transaction O (generate_list_of_splits_state round m) ledger).txn = none ∧
    (create_transaction O (generate_list_of_splits_state round m) ledger).post_calls = [] ∧
    (create_transaction O (generate_list_of_splits_state round m) ledger).ledger = ledger := by
  have hgen : (generate_list_of_splits round m).1 = false := by
    simp [generate_list_of_splits, hnone]
  have hstate : (generate_list_of_splits_state round m).list_of_splits = none := by
    simp [generate_list_of_splits_state, hgen]
  refine ⟨hgen, ?_, ?_, ?_, ?_⟩ <;> simp [create_transaction, hstate]

/-- C19 at the model of `test_failure_modes` after its three calls of
`maybe_reset_txn_types`, on the empty sample ledger. -/
theorem generate_and_create_fail_without_type_witness :
    (generate_list_of_splits id
      (maybe_reset_txn_types sampleTypes 0 sampleFreshModel).2).1 = false ∧
    (create_transaction sampleLedger (generate_list_of_splits_state id
      (maybe_reset_txn_types sampleTypes 0 sampleFreshModel).2) []).success = false ∧
    (create_transaction sampleLedger (generate_list_of_splits_state id
      (maybe_reset_txn_types sampleTypes 0 sampleFreshModel).2) []).txn = none ∧
    (create_transaction sampleLedger (generate_list_of_splits_state id
      (maybe_reset_txn_types sampleTypes 0 sampleFreshModel).2) []).post_calls = [] ∧
    (create_transaction sampleLedger (generate_list_of_splits_state id
      (maybe_reset_txn_types sampleTypes 0 sampleFreshModel).2) []).ledger = [] :=
  generate_and_create_fail_without_type id sampleLedger
    (maybe_reset_txn_types sampleTypes 0 sampleFreshModel).2 [] (by rfl)

/-- C20: in a successfully generated split list with `fees_capitalize` true there
is no fees leg: the list is the stock leg followed by the cash, dividend and
capital-gains legs, and an active fee is merged into the value of the stock leg.
With the fees account distinct from the stock, cash, dividend and capital-gains
accounts, no split is then posted to the fees account, and whenever a split is
posted to the fees account the fees role is active and the fees are not
capitalized. -/
theorem capitalized_fees_merged_into_stock_leg (round : GncNumeric → GncNumeric)
    (m : StockAssistantModel) (kind : TransactionTypeKind) (summary : String)
    (splits : List SplitInfo) (hkind : m.txn_type = some kind)
    (hgen : generate_list_of_splits round m = (true, summary, splits)) :
    (m.fees_capitalize = true →
      (∃ stock_leg cash_leg dividend_leg capgains_leg : List SplitInfo,
        (∀ s ∈ stock_leg, s.account = m.stock_account) ∧
        money_leg round "cash" kind.cash_value kind.cash_side m.cash_value m.cash_account
          = .ok cash_leg ∧
        money_leg round "dividend" kind.dividend_value kind.dividend_side m.dividend_value
          m.dividend_account = .ok dividend_leg ∧
        money_leg round "capital gains" kind.capgains_value kind.capgains_side
          m.capgains_value m.capgains_account = .ok capgains_leg ∧
        splits = stock_leg ++ cash_leg ++ dividend_leg ++ capgains_leg) ∧
      (∀ f, field_under_role "fees" kind.fees_value m.fees_value = .ok (some f) →
        ∃ sa sv rest,
          field_under_role "stock amount" kind.stock_amount m.stock_amount = .ok sa ∧
          field_under_role "stock value" kind.stock_value m.stock_value = .ok sv ∧
          splits =
            { account := m.stock_account, amount := sa.getD 0,
              value := kind.stock_side * round (sv.getD 0) + kind.fees_side * round f } :: rest)) ∧
    ((∀ a, m.fees_account = some a →
        a ≠ m.stock_account ∧ m.cash_account ≠ some a ∧ m.dividend_account ≠ some a ∧
          m.capgains_account ≠ some a) →
      (m.fees_capitalize = true → ∀ s ∈ splits, m.fees_account ≠ some s.account) ∧
      (∀ s ∈ splits, m.fees_account = some s.account →
        kind.fees_value ≠ .disabled ∧ m.fees_value ≠ none ∧ m.fees_capitalize = false)) := by
  -- the legs behind the generated list
  have himplied : implied_splits round kind m = .ok splits := by
    unfold generate_list_of_splits at hgen
    rw [hkind] at hgen
    dsimp only at hgen
    cases hi : implied_splits round kind m with
    | error msg => rw [hi] at hgen; simp at hgen
    | ok l =>
      rw [hi] at hgen
      dsimp only at hgen
      split_ifs at hgen
      · simp at hgen
      · simp only [Prod.mk.injEq] at hgen
        rw [hgen.2.2]
  obtain ⟨sa, sv, fees, cash_leg, fees_leg, dividend_leg, capgains_leg, h1, h2, h3, h4, hcapT,
    hcapF, h6, h7, hsplits⟩ := implied_splits_ok_inv round kind m splits himplied
  -- with `fees_capitalize` the fees leg is empty
  have hleg : m.fees_capitalize = true → fees_leg = [] := by
    intro hcapitalize
    cases hfees : fees with
    | none =>
      have hc : (fees.isSome && m.fees_capitalize) = false := by simp [hfees]
      exact money_leg_of_inactive _ _ _ _ _ _ _ (by rw [h3, hfees]) (hcapF hc)
    | some f => exact hcapT (by simp [hfees, hcapitalize])
  -- a split of the stock leg is on the stock account
  have hstockleg : ∀ s ∈ (if (sa.isSome || sv.isSome || fees.isSome && m.fees_capitalize) = true
      then [({ account := m.stock_account, amount := sa.getD 0,
               value := kind.stock_side * round (sv.getD 0) +
                 (if (fees.isSome && m.fees_capitalize) = true then
                   kind.fees_side * round (fees.getD 0) else 0) } : SplitInfo)]
      else []), s.account = m.stock_account := by
    intro s hs
    by_cases hc : (sa.isSome || sv.isSome || fees.isSome && m.fees_capitalize) = true
    · rw [if_pos hc] at hs
      simp only [List.mem_singleton] at hs
      rw [hs]
    · rw [if_neg hc] at hs
      simp at hs
  refine ⟨fun hcapitalize => ⟨?_, ?_⟩, fun hdistinct => ?_⟩
  · -- no fees leg
    refine ⟨_, cash_leg, dividend_leg, capgains_leg, hstockleg, h4, h6, h7, ?_⟩
    rw [hsplits, hleg hcapitalize, List.append_nil]
  · -- the fee is part of the value of the stock leg
    intro f hf
    rw [h3] at hf
    cases hf
    refine ⟨sa, sv, cash_leg ++ fees_leg ++ dividend_leg ++ capgains_leg, h1, h2, ?_⟩
    rw [hsplits]
    simp [hcapitalize]
  · -- a split on the fees account belongs to the fees leg
    have hmem : ∀ s ∈ splits, m.fees_account = some s.account → s ∈ fees_leg := by
      intro s hs hacct
      obtain ⟨hstock, hcash, hdiv, hcg⟩ := hdistinct s.account hacct
      rw [hsplits] at hs
      simp only [List.mem_append] at hs
      rcases hs with (((hs | hs) | hs) | hs) | hs
      · exact absurd (hstockleg s hs) hstock
      · exact absurd (money_leg_mem _ _ _ _ _ _ _ _ h4 hs).1 hcash
      · exact hs
      · exact absurd (money_leg_mem _ _ _ _ _ _ _ _ h6 hs).1 hdiv
      · exact absurd (money_leg_mem _ _ _ _ _ _ _ _ h7 hs).1 hcg
    refine ⟨fun hcapitalize s hs hacct => ?_, fun s hs hacct => ?_⟩
    · have := hmem s hs hacct
      rw [hleg hcapitalize] at this
      simp at this
    · have hin := hmem s hs hacct
      have hc : (fees.isSome && m.fees_capitalize) = false := by
        by_contra hne
        have : fees_leg = [] := hcapT (by simpa using hne)
        rw [this] at hin
        simp at hin
      obtain ⟨_, hrole, hfield⟩ := money_leg_mem _ _ _ _ _ _ _ _ (hcapF hc) hin
      refine ⟨hrole, hfield, ?_⟩
      have hsome : fees.isSome = true := by
        cases hv : m.fees_value with
        | none => exact absurd hv hfield
        | some v =>
          cases hk : kind.fees_value with
          | disabled => exact absurd hk hrole
          | required =>
            rw [hk, hv] at h3
            cases h3
            rfl
          | optional =>
            rw [hk, hv] at h3
            cases h3
            rfl
      simpa [hsome] using hc

/-- C20 at the first fixture row (Buy 100 shares from balance 0, stock value
20000.00, cash 20009.95, capitalized fees 9.95): the fee is part of the stock
leg, no split is on the fees account (account 3), and posting the transaction to
the empty sample ledger leaves 100 shares on the stock account and nothing on
the fees account. Over the whole fixture the fees that are not capitalized sum
to 4478 hundredths, the balance the test expects on the fees account. -/
theorem capitalized_fees_merged_into_stock_leg_witness :
    easyTestCase.head? = some sampleBuyRow ∧
    test_model sampleBuy 1561939200 sampleBuyRow = sampleBuyModel ∧
    generate_list_of_splits id sampleBuyModel =
      (true, "Buy: Buy",
        [{ account := 1, amount := 100, value := 20000 + 995 / 100 },
         { account := 2, amount := -(2000995 / 100), value := -(2000995 / 100) }]) ∧
    (∀ s ∈ ([{ account := 1, amount := 100, value := 20000 + 995 / 100 },
         { account := 2, amount := -(2000995 / 100), value := -(2000995 / 100) }] :
          List SplitInfo),
      sampleBuyModel.fees_account ≠ some s.account) ∧
    sampleBalance (create_transaction sampleLedger
      (generate_list_of_splits_state id sampleBuyModel) []).ledger 1 = 100 ∧
    sampleBalance (create_transaction sampleLedger
      (generate_list_of_splits_state id sampleBuyModel) []).ledger 3 = 0 ∧
    ((easyTestCase.filter (fun t => !t.capitalize)).map (fun t => t.fees_val)).sum = 4478 := by
  have hs : implied_splits id sampleBuy sampleBuyModel = .ok
      [{ account := 1, amount := 100, value := 20000 + 995 / 100 },
       { account := 2, amount := -(2000995 / 100), value := -(2000995 / 100) }] := by
    norm_num [implied_splits, money_leg, field_under_role, sampleBuyModel, sampleBuy, bind,
      Except.bind, pure, Except.pure]
    intro hne
    cases hne
  have hgen : generate_list_of_splits id sampleBuyModel =
      (true, "Buy: Buy",
        [{ account := 1, amount := 100, value := 20000 + 995 / 100 },
         { account := 2, amount := -(2000995 / 100), value := -(2000995 / 100) }]) := by
    unfold generate_list_of_splits
    simp only [show sampleBuyModel.txn_type = some sampleBuy from rfl, hs]
    norm_num
    rfl
  have hstate : (generate_list_of_splits_state id sampleBuyModel).list_of_splits = some
      [{ account := 1, amount := 100, value := 20000 + 995 / 100 },
       { account := 2, amount := -(2000995 / 100), value := -(2000995 / 100) }] := by
    simp [generate_list_of_splits_state, hgen]
  refine ⟨rfl, ?_, hgen, ?_, ?_, ?_, by decide⟩
  · simp [test_model, sampleBuyModel, sampleBuyRow]
    norm_num
  · exact ((capitalized_fees_merged_into_stock_leg id sampleBuyModel sampleBuy "Buy: Buy" _
      rfl hgen).2 (by
        intro a ha
        have : a = 3 := by
          simp [sampleBuyModel] at ha
          exact ha.symm
        subst this
        simp [sampleBuyModel])).1 rfl
  · simp [create_transaction, hstate, sampleLedger, sampleBalance]
  · simp [create_transaction, hstate, sampleLedger, sampleBalance]

/-! ## Theorems: failure paths and invariants of the price import -/

/-- C22, as stated, fails: with `over = true`, a same-day price in the sample
database and a new price the database refuses, `create_price` throws after the
old price was removed, and the database afterwards is empty instead of holding
the old price. -/
theorem create_price_refused_add_loses_old_price :
    samplePriceDB.gnc_pricedb_lookup_day [sampleOldPrice] 500 1 { tv_sec := 1000, tv_nsec := 0 }
      = some sampleOldPrice ∧
    (create_price sampleEngine samplePriceDB sampleRefusedRow 7 [sampleOldPrice] true).result =
      .error (.invalid_argument "Failed to create price from selected columns.") ∧
    (create_price sampleEngine samplePriceDB sampleRefusedRow 7 [sampleOldPrice] true).pdb = [] ∧
    (create_price sampleEngine samplePriceDB sampleRefusedRow 7 [sampleOldPrice] true).pdb ≠
      [sampleOldPrice] := by
  have h := create_price_of_set sampleEngine samplePriceDB sampleRefusedRow 7 [sampleOldPrice]
    true 1000 (-1) 500 1 rfl rfl rfl rfl
  have hold : samplePriceDB.gnc_pricedb_lookup_day [sampleOldPrice] 500 1
      { tv_sec := 1000, tv_nsec := 0 } = some sampleOldPrice := by decide
  rw [h]
  simp only [hold]
  norm_num [samplePriceDB, create_price_new_price, sampleEngine, create_price_rev]

/-- C22, amended: when an essential is missing, `create_price` returns `FAILED`
and the price database is untouched. When the database refuses the new price
and no same-day price was found, the database afterwards is the one the refused
addition left (the database before the call, when a refused addition changes
nothing). When `over` is true and a same-day price was found, the old price is
removed before the addition is attempted and is not restored when the addition
is refused: the database afterwards is the one left by the removal and the
refused addition. -/
theorem create_price_failure_paths {DB : Type} (E : Engine) (O : PriceDBOps DB)
    (self : GncImportPrice) (book : QofBook) (pdb : DB) (over : Bool) :
    (verify_essentials self ≠ "" →
      (create_price E O self book pdb over).result = .ok .FAILED ∧
      (create_price E O self book pdb over).pdb = pdb) ∧
    (∀ d a f t, self.m_date = some d → self.m_amount = some a →
      self.m_from_commodity = some f → self.m_to_currency = some t →
      O.gnc_pricedb_lookup_day pdb f t { tv_sec := d, tv_nsec := 0 } = none →
      (O.gnc_pricedb_add_price pdb (create_price_new_price E book { tv_sec := d, tv_nsec := 0 }
        a f t (create_price_rev E a f none))).1 = false →
      (create_price E O self book pdb over).result =
        .error (.invalid_argument "Failed to create price from selected columns.") ∧
      (create_price E O self book pdb over).pdb =
        (O.gnc_pricedb_add_price pdb (create_price_new_price E book
          { tv_sec := d, tv_nsec := 0 } a f t (create_price_rev E a f none))).2 ∧
      ((O.gnc_pricedb_add_price pdb (create_price_new_price E book
          { tv_sec := d, tv_nsec := 0 } a f t (create_price_rev E a f none))).2 = pdb →
        (create_price E O self book pdb over).pdb = pdb)) ∧
    (∀ d a f t old, self.m_date = some d → self.m_amount = some a →
      self.m_from_commodity = some f → self.m_to_currency = some t →
      O.gnc_pricedb_lookup_day pdb f t { tv_sec := d, tv_nsec := 0 } = some old →
      over = true →
      (O.gnc_pricedb_add_price (O.gnc_pricedb_remove_price pdb old).2
        (create_price_new_price E book { tv_sec := d, tv_nsec := 0 } a f t
          (create_price_rev E a f (some old)))).1 = false →
      (create_price E O self book pdb over).result =
        .error (.invalid_argument "Failed to create price from selected columns.") ∧
      (create_price E O self book pdb over).calls =
        [.lookup_day f t { tv_sec := d, tv_nsec := 0 }, .remove_price old,
         .add_price (create_price_new_price E book { tv_sec := d, tv_nsec := 0 } a f t
          (create_price_rev E a f (some old)))] ∧
      (create_price E O self book pdb over).pdb =
        (O.gnc_pricedb_add_price (O.gnc_pricedb_remove_price pdb old).2
          (create_price_new_price E book { tv_sec := d, tv_nsec := 0 } a f t
            (create_price_rev E a f (some old)))).2 ∧
      ((O.gnc_pricedb_add_price (O.gnc_pricedb_remove_price pdb old).2
          (create_price_new_price E book { tv_sec := d, tv_nsec := 0 } a f t
            (create_price_rev E a f (some old)))).2 = (O.gnc_pricedb_remove_price pdb old).2 →
        (create_price E O self book pdb over).pdb = (O.gnc_pricedb_remove_price pdb old).2)) := by
  refine ⟨?_, ?_, ?_⟩
  · intro h
    have he : (verify_essentials self).isEmpty = false := by
      unfold verify_essentials at h ⊢
      split_ifs at h ⊢ <;> first | decide | exact absurd rfl h
    unfold create_price
    simp [he]
  · intro d a f t hd ha hf ht hnone hrefused
    rw [create_price_of_set E O self book pdb over d a f t hd ha hf ht]
    simp only [hnone, hrefused]
    refine ⟨by simp, by simp, fun h => ?_⟩
    simpa using h
  · intro d a f t old hd ha hf ht hold hover hrefused
    subst hover
    rw [create_price_of_set E O self book pdb true d a f t hd ha hf ht]
    simp only [hold, hrefused]
    refine ⟨by simp, by simp, by simp, fun h => ?_⟩
    simpa using h

/-- C23, as stated, fails: with the four essentials set, no same-day price and
a new price the sample database refuses, `create_price` does not return `FAILED`
but throws `std::invalid_argument`. -/
theorem create_price_refused_add_throws :
    (samplePriceDB.gnc_pricedb_add_price []
      (create_price_new_price sampleEngine 7 { tv_sec := 1000, tv_nsec := 0 } (-1) 500 1
        (create_price_rev sampleEngine (-1) 500 none))).1 = false ∧
    (create_price sampleEngine samplePriceDB sampleRefusedRow 7 [] false).result =
      .error (.invalid_argument "Failed to create price from selected columns.") ∧
    (create_price sampleEngine samplePriceDB sampleRefusedRow 7 [] false).result ≠
      .ok .FAILED := by
  have h := create_price_of_set sampleEngine samplePriceDB sampleRefusedRow 7 [] false 1000 (-1)
    500 1 rfl rfl rfl rfl
  have hnone : samplePriceDB.gnc_pricedb_lookup_day [] 500 1 { tv_sec := 1000, tv_nsec := 0 }
      = none := by decide
  rw [h]
  simp only [hnone]
  norm_num [samplePriceDB, create_price_new_price, sampleEngine, create_price_rev]
  intro hfailed
  cases hfailed

/-- C23, amended: with the four essentials set, when the price database refuses
to add the newly built price, `create_price` throws `std::invalid_argument` with
the message "Failed to create price from selected columns." to its caller; with
the essentials set it never returns `FAILED`. -/
theorem create_price_throws_on_refused_add {DB : Type} (E : Engine) (O : PriceDBOps DB)
    (self : GncImportPrice) (book : QofBook) (pdb : DB) (over : Bool) (d : time64)
    (a : GncNumeric) (f t : gnc_commodity)
    (hd : self.m_date = some d) (ha : self.m_amount = some a)
    (hf : self.m_from_commodity = some f) (ht : self.m_to_currency = some t) :
    (O.gnc_pricedb_lookup_day pdb f t { tv_sec := d, tv_nsec := 0 } = none →
      (O.gnc_pricedb_add_price pdb (create_price_new_price E book { tv_sec := d, tv_nsec := 0 }
        a f t (create_price_rev E a f none))).1 = false →
      (create_price E O self book pdb over).result =
        .error (.invalid_argument "Failed to create price from selected columns.")) ∧
    (∀ old, O.gnc_pricedb_lookup_day pdb f t { tv_sec := d, tv_nsec := 0 } = some old →
      over = true →
      (O.gnc_pricedb_add_price (O.gnc_pricedb_remove_price pdb old).2
        (create_price_new_price E book { tv_sec := d, tv_nsec := 0 } a f t
          (create_price_rev E a f (some old)))).1 = false →
      (create_price E O self book pdb over).result =
        .error (.invalid_argument "Failed to create price from selected columns.")) ∧
    (create_price E O self book pdb over).result ≠ .ok .FAILED := by
  rw [create_price_of_set E O self book pdb over d a f t hd ha hf ht]
  refine ⟨?_, ?_, ?_⟩
  · intro hnone hrefused
    simp [hnone, hrefused]
  · intro old hold hover hrefused
    subst hover
    simp [hold, hrefused]
  · cases hold : O.gnc_pricedb_lookup_day pdb f t { tv_sec := d, tv_nsec := 0 } with
    | none =>
      simp only [hold]
      split_ifs <;> simp
    | some old =>
      cases over
      · simp [hold]
      · simp only [hold]
        split_ifs <;> simp

/-- C23, amended, at the sample row with the amount -1 and the empty sample
database. -/
theorem create_price_throws_on_refused_add_witness :
    (create_price sampleEngine samplePriceDB sampleRefusedRow 7 [] false).result =
      .error (.invalid_argument "Failed to create price from selected columns.") :=
  (create_price_throws_on_refused_add sampleEngine samplePriceDB sampleRefusedRow 7 [] false
    1000 (-1) 500 1 rfl rfl rfl rfl).1 (by decide)
    (by norm_num [samplePriceDB, create_price_new_price, sampleEngine, create_price_rev])

/-- C26: with the four essentials set, a from-commodity that is a currency, a
strictly positive amount `a` and no same-day price, the amount `create_price`
converts into the value of the price it adds is at least 1: it is `a` itself for
`1 ≤ a`, with commodity = from-commodity and currency = to-currency, and `1 / a`
for `0 < a < 1`, with commodity and currency swapped. -/
theorem create_price_currency_value_at_least_one {DB : Type} (E : Engine) (O : PriceDBOps DB)
    (self : GncImportPrice) (book : QofBook) (pdb : DB) (over : Bool) (d : time64)
    (a : GncNumeric) (f t : gnc_commodity)
    (hd : self.m_date = some d) (ha : self.m_amount = some a)
    (hf : self.m_from_commodity = some f) (ht : self.m_to_currency = some t)
    (hcurrency : E.gnc_commodity_is_currency f = true) (hpos : 0 < a)
    (hnone : O.gnc_pricedb_lookup_day pdb f t { tv_sec := d, tv_nsec := 0 } = none) :
    ∃ (stored : GncNumeric) (price : GNCPrice),
      (create_price E O self book pdb over).calls =
        [.lookup_day f t { tv_sec := d, tv_nsec := 0 }, .add_price price] ∧
      price.value = E.convert_half_up stored E.CURRENCY_DENOM ∧
      1 ≤ stored ∧
      (1 ≤ a → stored = a ∧ price.commodity = f ∧ price.currency = t) ∧
      (a < 1 → stored = 1 / a ∧ price.commodity = t ∧ price.currency = f) := by
  rw [create_price_of_set E O self book pdb over d a f t hd ha hf ht]
  simp only [hnone]
  by_cases hlt : a < 1
  · refine ⟨a⁻¹, _, rfl, ?_, ?_, fun hge => absurd hlt (not_lt.mpr hge), fun _ => ?_⟩
    · simp [create_price_new_price, create_price_rev, hcurrency, hlt]
    · exact (one_le_inv₀ hpos).mpr hlt.le
    · simp [create_price_new_price, create_price_rev, hcurrency, hlt]
  · refine ⟨a, _, rfl, ?_, not_lt.mp hlt, fun _ => ?_, fun h => absurd h hlt⟩
    · simp [create_price_new_price, create_price_rev, hcurrency, hlt]
    · simp [create_price_new_price, create_price_rev, hcurrency, hlt]

/-- C26 at the sample currency row and the empty sample database: the amount 0.25
is converted from 4, with the currencies swapped. -/
theorem create_price_currency_value_at_least_one_witness :
    ∃ (stored : GncNumeric) (price : GNCPrice),
      (create_price sampleEngine samplePriceDB sampleCurrencyRow 7 [] false).calls =
        [.lookup_day 2 1 { tv_sec := 1000, tv_nsec := 0 }, .add_price price] ∧
      price.value = sampleEngine.convert_half_up stored sampleEngine.CURRENCY_DENOM ∧
      1 ≤ stored ∧
      ((1 : ℚ) ≤ 1 / 4 → stored = 1 / 4 ∧ price.commodity = 2 ∧ price.currency = 1) ∧
      ((1 / 4 : ℚ) < 1 → stored = 1 / (1 / 4) ∧ price.commodity = 1 ∧ price.currency = 2) :=
  create_price_currency_value_at_least_one sampleEngine samplePriceDB sampleCurrencyRow 7 []
    false 1000 (1 / 4) 2 1 rfl rfl rfl rfl (by decide) (by norm_num) (by decide)

/-- When the `try` block of `set` ends with an exception, the optional of its
column type is unset. -/
theorem set_try_block_error_unsets (E : Engine) (T : CommodityTable) (self : GncImportPrice)
    (p : GncPricePropType) (value : String) (e : Exn)
    (h : (set_try_block E T self p value).1 = .error e) :
    (set_try_block E T self p value).2.is_set p = false := by
  cases p
  · rfl
  · simp only [set_try_block] at h ⊢
    cases hp : parse_date_price E value self.m_date_format with
    | error e2 => rfl
    | ok v => rw [hp] at h; cases h
  · simp only [set_try_block] at h ⊢
    cases hp : parse_amount_price E value self.m_currency_format with
    | error e2 => rfl
    | ok v => rw [hp] at h; cases h
  · simp only [set_try_block] at h ⊢
    cases hp : parse_commodity_price_comm T value with
    | error e2 => rfl
    | ok c =>
      rw [hp] at h
      cases c with
      | none => cases h
      | some comm => cases h
  · simp only [set_try_block] at h ⊢
    cases hp : parse_commodity_price_comm T value with
    | error e2 => rfl
    | ok c =>
      rw [hp] at h
      cases c with
      | none => cases h
      | some comm =>
        by_cases hc : E.gnc_commodity_is_currency comm = true
        · simp [hc] at h
        · simp [hc, GncImportPrice.is_set]

/-- After the `try` block of `set (TO_CURRENCY, value)`, a to-currency that is set
is a currency. -/
theorem set_try_block_to_currency (E : Engine) (T : CommodityTable) (self : GncImportPrice)
    (value : String) (c : gnc_commodity)
    (h : (set_try_block E T self .TO_CURRENCY value).2.m_to_currency = some c) :
    E.gnc_commodity_is_currency c = true := by
  simp only [set_try_block] at h
  cases hp : parse_commodity_price_comm T value with
  | error e2 => rw [hp] at h; cases h
  | ok oc =>
    rw [hp] at h
    cases oc with
    | none => cases h
    | some comm =>
      by_cases hc : E.gnc_commodity_is_currency comm = true
      · simp [hc] at h
        rw [← h]
        exact hc
      · simp [hc] at h

/-- The optionals after `set` are those its `try` block left. -/
theorem set_fields_eq_try_block (E : Engine) (T : CommodityTable) (self : GncImportPrice)
    (p : GncPricePropType) (value : String) :
    (GncImportPrice.set E T self p value).2.m_date = (set_try_block E T self p value).2.m_date ∧
    (GncImportPrice.set E T self p value).2.m_amount =
      (set_try_block E T self p value).2.m_amount ∧
    (GncImportPrice.set E T self p value).2.m_from_commodity =
      (set_try_block E T self p value).2.m_from_commodity ∧
    (GncImportPrice.set E T self p value).2.m_to_currency =
      (set_try_block E T self p value).2.m_to_currency := by
  rw [set_eq_of_try_block]
  cases (set_try_block E T self p value).1 <;> exact ⟨rfl, rfl, rfl, rfl⟩

/-- The method `set` throws exactly when its `try` block ends with an exception. -/
theorem set_result_of_try_block (E : Engine) (T : CommodityTable) (self : GncImportPrice)
    (p : GncPricePropType) (value : String) :
    ((GncImportPrice.set E T self p value).1 = .ok () ↔
      (set_try_block E T self p value).1 = .ok ()) ∧
    (∀ e, (GncImportPrice.set E T self p value).1 = .error e →
      ∃ e2, (set_try_block E T self p value).1 = .error e2) := by
  rw [set_eq_of_try_block]
  cases h : (set_try_block E T self p value).1 with
  | error e2 =>
    exact ⟨⟨fun h2 => (by cases h2), fun h2 => (by cases h2)⟩, fun _ _ => ⟨e2, rfl⟩⟩
  | ok u => exact ⟨⟨fun _ => rfl, fun _ => rfl⟩, fun e h2 => (by cases h2)⟩

/-- Whether an optional holds a value depends on the four optionals only. -/
theorem is_set_congr (s1 s2 : GncImportPrice) (k : GncPricePropType)
    (hd : s1.m_date = s2.m_date) (ha : s1.m_amount = s2.m_amount)
    (hf : s1.m_from_commodity = s2.m_from_commodity)
    (ht : s1.m_to_currency = s2.m_to_currency) : s1.is_set k = s2.is_set k := by
  cases k <;> simp [GncImportPrice.is_set, hd, ha, hf, ht]

/-- The error stored for a column type after `set`: none after a `set` of that
column type that returned, the one before for every other column type. -/
theorem set_errors_after (E : Engine) (T : CommodityTable) (self : GncImportPrice)
    (p : GncPricePropType) (value : String) :
    ((GncImportPrice.set E T self p value).1 = .ok () →
      errors_find p (GncImportPrice.set E T self p value).2.m_errors = none) ∧
    (∀ q, q ≠ p → errors_find q (GncImportPrice.set E T self p value).2.m_errors =
      errors_find q self.m_errors) := by
  have herr := set_try_block_errors E T self p value
  rw [set_eq_of_try_block]
  cases hr : (set_try_block E T self p value).1 with
  | ok u =>
    refine ⟨fun _ => ?_, fun q hq => ?_⟩
    · simp only [herr]
      exact errors_find_erase_self p _
    · simp only [herr]
      exact errors_find_erase_ne p q hq _
  | error e =>
    refine ⟨fun h => (by cases h), fun q hq => ?_⟩
    simp only [herr]
    rw [errors_find_emplace_ne p q hq, errors_find_erase_ne p q hq]

/-- The `try` block of `set` leaves the optional of every other column type as
set or unset as it was. -/
theorem set_try_block_is_set_ne (E : Engine) (T : CommodityTable) (self : GncImportPrice)
    (p k : GncPricePropType) (value : String) (hk : k ≠ p) :
    (set_try_block E T self p value).2.is_set k = self.is_set k := by
  obtain ⟨hd, ha, hf, ht⟩ := set_try_block_fields E T self p value
  have hpk : ∀ q, k = q → p ≠ q := fun q h1 h2 => hk (h1.trans h2.symm)
  cases k
  · rfl
  · simp [GncImportPrice.is_set, hd (hpk _ rfl)]
  · simp [GncImportPrice.is_set, ha (hpk _ rfl)]
  · simp [GncImportPrice.is_set, hf (hpk _ rfl)]
  · simp [GncImportPrice.is_set, ht (hpk _ rfl)]

/-- The optionals after `set` are set or unset as its `try` block left them. -/
theorem set_is_set_eq_try_block (E : Engine) (T : CommodityTable) (self : GncImportPrice)
    (p k : GncPricePropType) (value : String) :
    (GncImportPrice.set E T self p value).2.is_set k =
      (set_try_block E T self p value).2.is_set k := by
  obtain ⟨hd, ha, hf, ht⟩ := set_fields_eq_try_block E T self p value
  exact is_set_congr _ _ k hd ha hf ht

/-- The method `set` keeps "no column type has both a value and an error". -/
theorem set_keeps_exclusive (E : Engine) (T : CommodityTable) (self : GncImportPrice)
    (p : GncPricePropType) (value : String)
    (hinv : ∀ k, self.is_set k = true → errors_find k self.m_errors = none) :
    ∀ k, (GncImportPrice.set E T self p value).2.is_set k = true →
      errors_find k (GncImportPrice.set E T self p value).2.m_errors = none := by
  intro k hset
  obtain ⟨hown, hother⟩ := set_errors_after E T self p value
  by_cases hk : k = p
  · subst hk
    cases hr : (GncImportPrice.set E T self k value).1 with
    | ok u => exact hown hr
    | error e =>
      obtain ⟨e2, he2⟩ := (set_result_of_try_block E T self k value).2 e hr
      have hunset := set_try_block_error_unsets E T self k value e2 he2
      rw [set_is_set_eq_try_block, hunset] at hset
      cases hset
  · rw [hother k hk]
    apply hinv
    rw [set_is_set_eq_try_block, set_try_block_is_set_ne E T self p k value hk] at hset
    exact hset

/-- The member variables after `reset`: those after `set` with the empty text,
with the errors of the column type erased when `set` threw. -/
theorem reset_state (E : Engine) (T : CommodityTable) (self : GncImportPrice)
    (p : GncPricePropType) :
    (GncImportPrice.reset E T self p).2 = (GncImportPrice.set E T self p "").2 ∨
    (GncImportPrice.reset E T self p).2 =
      { (GncImportPrice.set E T self p "").2 with
        m_errors := errors_erase p (GncImportPrice.set E T self p "").2.m_errors } := by
  unfold GncImportPrice.reset
  rcases h : GncImportPrice.set E T self p "" with ⟨r, st⟩
  cases r with
  | error e => right; rfl
  | ok u => left; rfl

/-- The method `reset` keeps "no column type has both a value and an error". -/
theorem reset_keeps_exclusive (E : Engine) (T : CommodityTable) (self : GncImportPrice)
    (p : GncPricePropType)
    (hinv : ∀ k, self.is_set k = true → errors_find k self.m_errors = none) :
    ∀ k, (GncImportPrice.reset E T self p).2.is_set k = true →
      errors_find k (GncImportPrice.reset E T self p).2.m_errors = none := by
  have hset := set_keeps_exclusive E T self p "" hinv
  intro k hk
  rcases reset_state E T self p with h | h
  · rw [h] at hk ⊢
    exact hset k hk
  · rw [h] at hk ⊢
    by_cases hkp : k = p
    · subst hkp
      exact errors_find_erase_self k _
    · simp only []
      rw [errors_find_erase_ne p k hkp]
      exact hset k hk

/-- A sequence of calls keeps "no column type has both a value and an error". -/
theorem after_calls_keeps_exclusive (E : Engine) (T : CommodityTable) (calls : List PriceCall)
    (self : GncImportPrice)
    (hinv : ∀ k, self.is_set k = true → errors_find k self.m_errors = none) :
    ∀ k, (self.after_calls E T calls).is_set k = true →
      errors_find k (self.after_calls E T calls).m_errors = none := by
  induction calls generalizing self with
  | nil => exact hinv
  | cons call rest ih =>
    have hstep : ∀ k, (self.after_call E T call).is_set k = true →
        errors_find k (self.after_call E T call).m_errors = none := by
      cases call with
      | set p value => exact set_keeps_exclusive E T self p value hinv
      | reset p => exact reset_keeps_exclusive E T self p hinv
    exact ih (self.after_call E T call) hstep

/-- The method `set` keeps "a to-currency that is set is a currency". -/
theorem set_keeps_to_currency (E : Engine) (T : CommodityTable) (self : GncImportPrice)
    (p : GncPricePropType) (value : String)
    (hinv : ∀ c, self.m_to_currency = some c → E.gnc_commodity_is_currency c = true) :
    ∀ c, (GncImportPrice.set E T self p value).2.m_to_currency = some c →
      E.gnc_commodity_is_currency c = true := by
  intro c hc
  rw [(set_fields_eq_try_block E T self p value).2.2.2] at hc
  by_cases hp : p = .TO_CURRENCY
  · subst hp
    exact set_try_block_to_currency E T self value c hc
  · rw [(set_try_block_fields E T self p value).2.2.2 hp] at hc
    exact hinv c hc

/-- A sequence of calls keeps "a to-currency that is set is a currency". -/
theorem after_calls_keeps_to_currency (E : Engine) (T : CommodityTable)
    (calls : List PriceCall) (self : GncImportPrice)
    (hinv : ∀ c, self.m_to_currency = some c → E.gnc_commodity_is_currency c = true) :
    ∀ c, (self.after_calls E T calls).m_to_currency = some c →
      E.gnc_commodity_is_currency c = true := by
  induction calls generalizing self with
  | nil => exact hinv
  | cons call rest ih =>
    have hstep : ∀ c, (self.after_call E T call).m_to_currency = some c →
        E.gnc_commodity_is_currency c = true := by
      cases call with
      | set p value => exact set_keeps_to_currency E T self p value hinv
      | reset p =>
        intro c hc
        have hset := set_keeps_to_currency E T self p "" hinv
        simp only [GncImportPrice.after_call] at hc
        rcases reset_state E T self p with h | h
        · rw [h] at hc
          exact hset c hc
        · rw [h] at hc
          exact hset c hc
    exact ih (self.after_call E T call) hstep

/-- C24: after any sequence of `set` and `reset` calls on a fresh
`GncImportPrice`, no column type has both its optional set and an error stored;
a `set` that throws leaves the optional of its column type unset, whatever it
held before, and a `set` that returns leaves no error for its column type. -/
theorem value_and_error_exclusive (E : Engine) (T : CommodityTable) (date_format : Fin 5)
    (currency_format : Int) (calls : List PriceCall) (kind : GncPricePropType)
    (self : GncImportPrice) (value : String) :
    ¬ (((GncImportPrice.fresh date_format currency_format).after_calls E T calls).is_set kind
          = true ∧
        errors_find kind
          ((GncImportPrice.fresh date_format currency_format).after_calls E T calls).m_errors
          ≠ none) ∧
    (∀ e, (GncImportPrice.set E T self kind value).1 = .error e →
      (GncImportPrice.set E T self kind value).2.is_set kind = false) ∧
    ((GncImportPrice.set E T self kind value).1 = .ok () →
      errors_find kind (GncImportPrice.set E T self kind value).2.m_errors = none) := by
  refine ⟨?_, ?_, ?_⟩
  · rintro ⟨hset, herr⟩
    apply herr
    refine after_calls_keeps_exclusive E T calls _ ?_ kind hset
    intro k hk
    cases k <;> simp [GncImportPrice.fresh, GncImportPrice.is_set] at hk
  · intro e he
    obtain ⟨e2, he2⟩ := (set_result_of_try_block E T self kind value).2 e he
    rw [set_is_set_eq_try_block]
    exact set_try_block_error_unsets E T self kind value e2 he2
  · exact (set_errors_after E T self kind value).1

/-- C24 at the sample row, whose date is set: a `set` of the date from a text
that is no date throws and leaves the date unset; after that call and a `set` of
the amount on a fresh object, neither column type has both a value and an
error. -/
theorem value_and_error_exclusive_witness :
    sampleRow.m_date = some 1000 ∧
    (GncImportPrice.set sampleEngineDecimal sampleTable sampleRow .DATE "soon").2.is_set .DATE
      = false ∧
    ¬ (((GncImportPrice.fresh 1 1).after_calls sampleEngineDecimal sampleTable
          [.set .DATE "soon", .set .AMOUNT "12.50", .reset .TO_CURRENCY]).is_set .DATE = true ∧
        errors_find .DATE
          ((GncImportPrice.fresh 1 1).after_calls sampleEngineDecimal sampleTable
            [.set .DATE "soon", .set .AMOUNT "12.50", .reset .TO_CURRENCY]).m_errors ≠ none) :=
  ⟨rfl,
   (value_and_error_exclusive sampleEngineDecimal sampleTable 1 1 [] .DATE sampleRow "soon").2.1
     (.invalid_argument ("Date" ++ " could not be understood.\n" ++
       "Value can't be parsed into a date using the selected date format.")) (by rfl),
   (value_and_error_exclusive sampleEngineDecimal sampleTable 1 1
     [.set .DATE "soon", .set .AMOUNT "12.50", .reset .TO_CURRENCY] .DATE sampleRow "").1⟩

/-- C25: for a text that `parse_commodity_price_comm` resolves to a commodity that
is not a currency, `set (TO_CURRENCY, text)` throws the "Currency To" error and
leaves the to-currency unset, while `set (FROM_COMMODITY, text)` returns and
stores the commodity; and after any sequence of `set` and `reset` calls on a
fresh `GncImportPrice`, a to-currency that is set is a currency. -/
theorem to_currency_holds_currency (E : Engine) (T : CommodityTable) (self : GncImportPrice)
    (value : String) (comm : gnc_commodity)
    (hparse : parse_commodity_price_comm T value = .ok (some comm))
    (hnot : E.gnc_commodity_is_currency comm = false) :
    (GncImportPrice.set E T self .TO_CURRENCY value).1 =
      .error (.invalid_argument ("Currency To" ++ " could not be understood.\n" ++
        "Value parsed into an invalid currency for a currency column type.")) ∧
    (GncImportPrice.set E T self .TO_CURRENCY value).2.m_to_currency = none ∧
    errors_find .TO_CURRENCY (GncImportPrice.set E T self .TO_CURRENCY value).2.m_errors =
      some ("Currency To" ++ " could not be understood.\n" ++
        "Value parsed into an invalid currency for a currency column type.") ∧
    (GncImportPrice.set E T self .FROM_COMMODITY value).1 = .ok () ∧
    (GncImportPrice.set E T self .FROM_COMMODITY value).2.m_from_commodity = some comm ∧
    (∀ (date_format : Fin 5) (currency_format : Int) (calls : List PriceCall) (c : gnc_commodity),
      ((GncImportPrice.fresh date_format currency_format).after_calls E T calls).m_to_currency
        = some c →
      E.gnc_commodity_is_currency c = true) := by
  refine ⟨?_, ?_, ?_, ?_, ?_, ?_⟩
  · simp [GncImportPrice.set, set_try_block, hparse, hnot, gnc_price_col_type_strs, Exn.what]
  · simp [GncImportPrice.set, set_try_block, hparse, hnot]
  · simp only [GncImportPrice.set, set_try_block, hparse, hnot, gnc_price_col_type_strs]
    exact errors_find_emplace_absent _ _ _ (errors_find_erase_self _ _)
  · simp [GncImportPrice.set, set_try_block, hparse]
  · simp [GncImportPrice.set, set_try_block, hparse]
  · intro date_format currency_format calls c hc
    refine after_calls_keeps_to_currency E T calls _ ?_ c hc
    intro c2 hc2
    simp [GncImportPrice.fresh] at hc2

/-- C25 at the sample table and the text "AAPL", a stock: it is refused as
to-currency and stored as from-commodity. -/
theorem to_currency_holds_currency_witness :
    (GncImportPrice.set sampleEngine sampleTable sampleRow .TO_CURRENCY "AAPL").1 =
      .error (.invalid_argument ("Currency To" ++ " could not be understood.\n" ++
        "Value parsed into an invalid currency for a currency column type.")) ∧
    (GncImportPrice.set sampleEngine sampleTable sampleRow .TO_CURRENCY "AAPL").2.m_to_currency
      = none ∧
    (GncImportPrice.set sampleEngine sampleTable sampleRow .FROM_COMMODITY "AAPL").1 = .ok () ∧
    (GncImportPrice.set sampleEngine sampleTable sampleRow .FROM_COMMODITY
      "AAPL").2.m_from_commodity = some 500 :=
  ⟨(to_currency_holds_currency sampleEngine sampleTable sampleRow "AAPL" 500 (by rfl)
      (by rfl)).1,
   (to_currency_holds_currency sampleEngine sampleTable sampleRow "AAPL" 500 (by rfl)
      (by rfl)).2.1,
   (to_currency_holds_currency sampleEngine sampleTable sampleRow "AAPL" 500 (by rfl)
      (by rfl)).2.2.2.1,
   (to_currency_holds_currency sampleEngine sampleTable sampleRow "AAPL" 500 (by rfl)
      (by rfl)).2.2.2.2.1⟩

end GnuCash
